import Mathlib

/-!
# Period tracker: cycle log, running average, irregularity check, predictions

Shallow embedding of `periodtracker/cppcode/main.cpp`.

* Dates are stored and passed as `std::string` in the form `dd-mm-yyyy`; they are `String` here.
* `std::tm` is the record `Tm`; only the three fields written by `get_time` with the format
  `%d-%m-%Y` are kept.  The other fields are zero-initialised by `std::tm x = {}` and, in a time
  zone with a fixed UTC offset (no daylight saving), `mktime` leaves the clock fields at zero.
* `std::chrono::system_clock` time points count nanoseconds in a signed 64-bit integer; the
  conversion `from_time_t` and the subtraction of two time points wrap around modulo `2^64`
  (`wrapInt64`).  A day difference therefore is exact only up to 106751 days (about 292 years)
  either way, and never leaves that range (`calculateDaysDifference_range`).
* `int` values are `Int`.  Every date field left by `get_time` is bounded (day at most 31,
  month at most 12, year at most 9999; `get_time_range`), and day differences stay within
  106751, far inside the 32-bit range; the statement on how `addCycle` rounds the running
  average assumes that the average and the sum formed from it are 32-bit values (`isInt32`).
* Console output is returned as a value: the advisory lines, the flagged pairs, the predictions.
* Methods that are not `const` in the source return the tracker next to their output.
-/

/-! ## Calendar arithmetic behind `mktime` -/

/-- Gregorian leap-year rule. -/
def isLeap (y : Int) : Bool := decide (y % 4 = 0 ∧ (y % 100 ≠ 0 ∨ y % 400 = 0))

/-- Length of month `mon` (0 = January .. 11 = December) of year `y`. -/
def daysInMonth (y mon : Int) : Int :=
  if mon = 1 then (if isLeap y then 29 else 28)
  else if mon = 3 ∨ mon = 5 ∨ mon = 8 ∨ mon = 10 then 30
  else 31

/-- Number of leap years in the years `1 .. y` (floor divisions). -/
def leapsThruEndOf (y : Int) : Int := y / 4 - y / 100 + y / 400

/-- Days of the year that precede month `mon` (0 = January .. 11 = December). -/
def monYday (leap : Bool) (mon : Int) : Int :=
  let base : Int :=
    if mon = 0 then 0 else if mon = 1 then 31 else if mon = 2 then 59 else if mon = 3 then 90
    else if mon = 4 then 120 else if mon = 5 then 151 else if mon = 6 then 181
    else if mon = 7 then 212 else if mon = 8 then 243 else if mon = 9 then 273
    else if mon = 10 then 304 else 334
  if leap && decide (2 ≤ mon) then base + 1 else base

/-- Days from 1970-01-01 to day `mday` of month `mon` (0-based) of year `y`.  The day of the
month enters linearly, so a day outside the month (0, 32, -13, ...) is counted through. -/
def daysFromCivil (y mon mday : Int) : Int :=
  365 * (y - 1970) + (leapsThruEndOf (y - 1) - leapsThruEndOf 1969)
    + monYday (isLeap y) mon + (mday - 1)

/-- Calendar date `(year, month 0..11, day of month)` of the day `t` days after 1970-01-01.
The count is re-based on 2000-03-01 and split into 400-year, 100-year, 4-year and 1-year
cycles; the month is read off the day of the March-based year. -/
def civilFromDays (t : Int) : Int × Int × Int :=
  let days := t - 11017
  let qc_cycles := days / 146097
  let remdays := days % 146097
  let c_cycles := min (remdays / 36524) 3
  let remdays := remdays - c_cycles * 36524
  let q_cycles := min (remdays / 1461) 24
  let remdays := remdays - q_cycles * 1461
  let remyears := min (remdays / 365) 3
  let remdays := remdays - remyears * 365
  let years := remyears + 4 * q_cycles + 100 * c_cycles + 400 * qc_cycles
  let months := (5 * remdays + 2) / 153
  let mday := remdays - (153 * months + 2) / 5 + 1
  if 10 ≤ months then (years + 2001, months - 10, mday) else (years + 2000, months + 2, mday)

/-- The day count of `daysFromCivil` in the March-based form used by the proofs: `y` is the
year that the preceding 1 March lies in and `mp` counts months from March. -/
def marchDays (y mp d : Int) : Int :=
  365 * y + leapsThruEndOf y + (153 * mp + 2) / 5 + d - 719469

/-! ## `std::tm`, `std::mktime`, `std::get_time`, `std::put_time` -/

/-- The fields of `std::tm` that the program reads or writes: `tm_mday` (1..31 when
normalised), `tm_mon` (months since January) and `tm_year` (years since 1900). -/
structure Tm where
  tm_mday : Int
  tm_mon : Int
  tm_year : Int
deriving DecidableEq, Repr

/-- Day count since the epoch of a broken-down time whose fields may be out of range: months
are carried into the year first, then the day of the month is counted through. -/
def Tm.days (t : Tm) : Int :=
  daysFromCivil (t.tm_year + 1900 + t.tm_mon / 12) (t.tm_mon % 12) t.tm_mday

/-- Model of `std::mktime(&t)` in a zone with a fixed UTC offset, taken here as zero: returns
the normalised structure (what the call leaves in `t`) and the `time_t` value in seconds. -/
def mktime (t : Tm) : Tm × Int :=
  let days := t.days
  let c := civilFromDays days
  (⟨c.2.2, c.2.1, c.1 - 1900⟩, days * 86400)

/-- Reads at most `len` leading decimal digits onto `value`: the number of digits read, the
resulting value and the unread rest. -/
def extractDigits : Nat → Nat → List Char → Nat × Nat × List Char
  | 0, value, cs => (0, value, cs)
  | _ + 1, value, [] => (0, value, [])
  | len + 1, value, c :: cs =>
    if c.isDigit then
      let r := extractDigits len (value * 10 + (c.toNat - 48)) cs
      (r.1 + 1, r.2.1, r.2.2)
    else (0, value, c :: cs)

/-- A numeric conversion of `get_time`: one to `len` digits whose value lies in `lo .. hi`;
`none` sets the stream's failbit. -/
def extractNum (cs : List Char) (lo hi len : Nat) : Option (Nat × List Char) :=
  let r := extractDigits len 0 cs
  if 0 < r.1 ∧ lo ≤ r.2.1 ∧ r.2.1 ≤ hi then some (r.2.1, r.2.2) else none

/-- Model of `stream >> std::get_time(&t, "%d-%m-%Y")` on a zero-initialised `t`: day
(1..31, up to two digits), hyphen, month (1..12, up to two digits, stored 0-based), hyphen,
year (0..9999, up to FOUR digits, stored minus 1900); text after the year stays unread.  When
a conversion fails the later fields keep their initial zero; the program never tests the
stream state. -/
def get_time (s : String) : Tm :=
  match extractNum s.toList 1 31 2 with
  | none => ⟨0, 0, 0⟩
  | some (d, r1) =>
    match r1 with
    | '-' :: r2 =>
      match extractNum r2 1 12 2 with
      | none => ⟨d, 0, 0⟩
      | some (m, r3) =>
        match r3 with
        | '-' :: r4 =>
          match extractNum r4 0 9999 4 with
          | none => ⟨d, (m : Int) - 1, 0⟩
          | some (y, _) => ⟨d, (m : Int) - 1, (y : Int) - 1900⟩
        | _ => ⟨d, (m : Int) - 1, 0⟩
    | _ => ⟨d, 0, 0⟩

/-- Decimal digit character of `n % 10`. -/
def digitChar (n : Nat) : Char := Char.ofNat (48 + n % 10)

/-- Decimal digits of `n`, most significant first; `fuel` bounds the number of digits. -/
def natDigits : Nat → Nat → List Char
  | 0, _ => []
  | fuel + 1, n => if n < 10 then [digitChar n] else natDigits fuel (n / 10) ++ [digitChar n]

/-- Decimal text of an integer, with a minus sign when negative and no padding. -/
def intDecimal (n : Int) : List Char :=
  if n < 0 then '-' :: natDigits (n.natAbs + 1) n.natAbs else natDigits (n.toNat + 1) n.toNat

/-- The conversions `%d` and `%m` of `put_time`: two digits, zero padded. -/
def twoDigits (n : Int) : List Char :=
  if 0 ≤ n ∧ n < 10 then '0' :: intDecimal n else intDecimal n

/-- Model of `stream << std::put_time(&t, "%d-%m-%Y")`: two-digit day, two-digit month
(1-based) and the year as a plain decimal number, as many digits as it has. -/
def put_time (t : Tm) : String :=
  String.mk (twoDigits t.tm_mday ++ '-' :: twoDigits (t.tm_mon + 1) ++ '-' ::
    intDecimal (t.tm_year + 1900))

/-- Value of a signed 64-bit integer after wrap-around: the representative of `x` modulo
`2^64` in `-2^63 .. 2^63 - 1`. -/
def wrapInt64 (x : Int) : Int :=
  (x + 9223372036854775808) % 18446744073709551616 - 9223372036854775808

/-- Model of `std::chrono::system_clock::from_time_t`: the time point of a `time_t` (seconds)
as a count of nanoseconds in a signed 64-bit integer. -/
def from_time_t (t : Int) : Int := wrapInt64 (t * 1000000000)

/-- The values that fit an `int` (32 bits). -/
def isInt32 (x : Int) : Prop := -2147483648 ≤ x ∧ x ≤ 2147483647

instance (x : Int) : Decidable (isInt32 x) := by
  unfold isInt32
  infer_instance

/-- The step `t.tm_mday += n; std::mktime(&t);` that the program uses to move a date. -/
def addDaysTm (t : Tm) (n : Int) : Tm :=
  (mktime { t with tm_mday := t.tm_mday + n }).1

/-- Date text to date text: parse, move by `n` days, normalise, format (source lines 58-60,
72-80). -/
def addDays (date : String) (n : Int) : String :=
  put_time (addDaysTm (get_time date) n)

/-! ## The tracker -/

/-- One recorded cycle (`struct Cycle`). -/
structure PeriodTracker.Cycle where
  startDate : String
  endDate : String
  symptoms : List String
deriving DecidableEq, Repr

/-- The data members of `class PeriodTracker`. -/
structure PeriodTracker where
  cycles : List PeriodTracker.Cycle
  averageCycleLength : Int
deriving DecidableEq, Repr

/-- One entry of the output of `predictFuturePeriods`: the predicted start and the three
dates printed for it by `calculateOvulationAndFertility`. -/
structure Prediction where
  predictedPeriodStart : String
  ovulationDate : String
  fertileStartDate : String
  fertileEndDate : String
deriving DecidableEq, Repr

/-- The values that `distribution(generator)` returns, in call order, for a
default-constructed `std::default_random_engine` and a
`std::uniform_int_distribution<int>(lo, hi)`.  Engine and distribution algorithm are
implementation-defined; `inRange` is the distribution's contract.  The engine is constructed
afresh, with the default seed, in every call of `predictFuturePeriods`, so every call sees
the same sequence. -/
structure UniformDraws (lo hi : Int) where
  draw : Nat → Int
  inRange : ∀ k, lo ≤ draw k ∧ draw k ≤ hi

namespace PeriodTracker

/-- A freshly constructed tracker: no cycles, `averageCycleLength = 28`. -/
def init : PeriodTracker := ⟨[], 28⟩

/-- Day count from `date1` to `date2` as the source computes it: both `time_t` values become
`system_clock` time points (64-bit nanosecond counts), their difference (again a 64-bit
nanosecond count) is cast to seconds and divided by the seconds of a day, both divisions
truncating toward zero.  The result always fits the `int` that is returned. -/
def calculateDaysDifference (date1 date2 : String) : Int :=
  let tm1 := get_time date1
  let tm2 := get_time date2
  let time1 := from_time_t (mktime tm1).2
  let time2 := from_time_t (mktime tm2).2
  let seconds := Int.tdiv (wrapInt64 (time2 - time1)) 1000000000
  Int.tdiv seconds (60 * 60 * 24)

/-- The loop of `healthReminders`: the tip lines printed for the symptoms, in order. -/
def healthRemindersLoop : List String → List String
  | [] => []
  | symptom :: rest =>
    if symptom = "cramps" then
      "Tip: Try heat therapy or light exercise to relieve cramps." :: healthRemindersLoop rest
    else if symptom = "headache" then
      "Tip: Stay hydrated and consider a small dose of over-the-counter pain relief."
        :: healthRemindersLoop rest
    else if symptom = "moodswings" then
      "Tip: Engage in activities you enjoy or practice mindfulness to help stabilize your mood."
        :: healthRemindersLoop rest
    else if symptom = "nausea" then
      "Tip: Ginger tea may help soothe nausea." :: healthRemindersLoop rest
    else healthRemindersLoop rest

/-- The lines printed by `healthReminders`: the heading, then the tips. -/
def healthReminders (symptoms : List String) : List String :=
  "----- Health Reminders -----" :: healthRemindersLoop symptoms

/-- Appends the cycle, folds its length into the running average, and prints the health
reminders when there are symptoms.  Returns the new tracker and the printed lines. -/
def addCycle (self : PeriodTracker) (startDate endDate : String) (symptomList : List String) :
    PeriodTracker × List String :=
  let cycles := self.cycles ++ [⟨startDate, endDate, symptomList⟩]
  let cycleLength := calculateDaysDifference startDate endDate
  let averageCycleLength := Int.tdiv (self.averageCycleLength + cycleLength) 2
  (⟨cycles, averageCycleLength⟩, if symptomList.isEmpty then [] else healthReminders symptomList)

/-- Ovulation date and fertile window for a next period start, as the three printed dates
`(ovulationDate, fertileStartDate, fertileEndDate)`.  One `std::tm` is moved three times. -/
def calculateOvulationAndFertility (nextPeriodStartDate : String) : String × String × String :=
  let nextPeriodTm := get_time nextPeriodStartDate
  let nextPeriodTm := (mktime { nextPeriodTm with tm_mday := nextPeriodTm.tm_mday - 14 }).1
  let ovulationDate := put_time nextPeriodTm
  let nextPeriodTm := (mktime { nextPeriodTm with tm_mday := nextPeriodTm.tm_mday - 2 }).1
  let fertileStartDate := put_time nextPeriodTm
  let nextPeriodTm := (mktime { nextPeriodTm with tm_mday := nextPeriodTm.tm_mday + 3 }).1
  let fertileEndDate := put_time nextPeriodTm
  (ovulationDate, fertileStartDate, fertileEndDate)

/-- The loop `for (int i = 1; i <= 2; ++i)` of `predictFuturePeriods`, with `todo` iterations
left, `k` values already drawn and the running `lastPeriodTm`. -/
def predictLoop (draw : Nat → Int) : Nat → Nat → Tm → List Prediction
  | 0, _, _ => []
  | todo + 1, k, lastPeriodTm =>
    let predictedCycleLength := draw k
    let lastPeriodTm :=
      (mktime { lastPeriodTm with tm_mday := lastPeriodTm.tm_mday + predictedCycleLength }).1
    let predictedPeriodStart := put_time lastPeriodTm
    let r := calculateOvulationAndFertility predictedPeriodStart
    ⟨predictedPeriodStart, r.1, r.2.1, r.2.2⟩ :: predictLoop draw todo (k + 1) lastPeriodTm

/-- Predicts the next two periods from the end date of the last stored cycle; `none` is the
message "No period data available to predict future periods.". -/
def predictFuturePeriods (gen : UniformDraws 28 30) (self : PeriodTracker) :
    PeriodTracker × Option (List Prediction) :=
  match self.cycles.getLast? with
  | none => (self, none)
  | some last =>
    let lastEndDate := last.endDate
    let lastPeriodTm := get_time lastEndDate
    (self, some (predictLoop gen.draw 2 0 lastPeriodTm))

/-- The loop `for (size_t i = 1; i < cycles.size(); ++i)` of `checkIrregularCycles`, with
`todo` iterations left: the pairs of start dates for which a warning is printed. -/
def checkIrregularLoop (self : PeriodTracker) : Nat → Nat → List (String × String)
  | 0, _ => []
  | todo + 1, i =>
    match self.cycles[i - 1]?, self.cycles[i]? with
    | some prev, some cur =>
      let currentCycleLength := calculateDaysDifference prev.startDate cur.startDate
      (if (currentCycleLength - self.averageCycleLength).natAbs > 5 then
          [(prev.startDate, cur.startDate)] else [])
        ++ checkIrregularLoop self todo (i + 1)
    | _, _ => []

/-- Warns about every consecutive pair of start dates whose gap is more than 5 days away
from the current average. -/
def checkIrregularCycles (self : PeriodTracker) : PeriodTracker × List (String × String) :=
  if self.cycles.length < 2 then (self, [])
  else (self, checkIrregularLoop self (self.cycles.length - 1) 1)

/-- Start date of the cycle stored at position `i` (the empty text past the end). -/
def startAt (self : PeriodTracker) (i : Nat) : String :=
  match self.cycles[i]? with
  | some c => c.startDate
  | none => ""

end PeriodTracker

/-! ## Dates of the specification -/

/-- A calendar date of the specification: day, month (1..12) and year. -/
structure Date where
  day : Nat
  month : Nat
  year : Nat
deriving DecidableEq, Repr

/-- A real day of the Gregorian calendar with a four-digit year 0001..9999. -/
def Date.Valid (d : Date) : Prop :=
  1 ≤ d.year ∧ d.year ≤ 9999 ∧ 1 ≤ d.month ∧ d.month ≤ 12 ∧ 1 ≤ d.day ∧
    (d.day : Int) ≤ daysInMonth d.year ((d.month : Int) - 1)

instance (d : Date) : Decidable d.Valid := by
  unfold Date.Valid
  infer_instance

/-- Chronological order of dates: by year, then month, then day. -/
def Date.le (a b : Date) : Prop :=
  a.year < b.year ∨ (a.year = b.year ∧ (a.month < b.month ∨ (a.month = b.month ∧ a.day ≤ b.day)))

instance (a b : Date) : Decidable (a.le b) := by
  unfold Date.le
  infer_instance

/-- The text `dd-mm-yyyy` of a date: two-digit day, two-digit month, four-digit year. -/
def Date.text (d : Date) : String :=
  String.mk [digitChar (d.day / 10), digitChar d.day, '-', digitChar (d.month / 10),
    digitChar d.month, '-', digitChar (d.year / 1000), digitChar (d.year / 100),
    digitChar (d.year / 10), digitChar d.year]

/-- The `std::tm` that a date stands for. -/
def Date.toTm (d : Date) : Tm := ⟨d.day, (d.month : Int) - 1, (d.year : Int) - 1900⟩

/-- Field ranges of a normalised `std::tm`: month 0..11 and a day that exists in that month
of that year. -/
def Tm.Valid (t : Tm) : Prop :=
  0 ≤ t.tm_mon ∧ t.tm_mon ≤ 11 ∧ 1 ≤ t.tm_mday ∧ t.tm_mday ≤ daysInMonth (t.tm_year + 1900) t.tm_mon

instance (t : Tm) : Decidable t.Valid := by
  unfold Tm.Valid
  infer_instance

/-- Exact-match advisory table of the specification: the fixed tip of a known symptom tag,
nothing for any other tag. -/
def advisoryFor (symptomTag : String) : Option String :=
  if symptomTag = "cramps" then
    some "Tip: Try heat therapy or light exercise to relieve cramps."
  else if symptomTag = "headache" then
    some "Tip: Stay hydrated and consider a small dose of over-the-counter pain relief."
  else if symptomTag = "moodswings" then
    some "Tip: Engage in activities you enjoy or practice mindfulness to help stabilize your mood."
  else if symptomTag = "nausea" then
    some "Tip: Ginger tea may help soothe nausea."
  else none

/-- Draws used in examples: 28, 30, 28, 30, ... -/
def exampleDraws : UniformDraws 28 30 :=
  ⟨fun k => if k % 2 = 0 then 28 else 30, fun k => by beta_reduce; split <;> decide⟩

/-- The draws 28, 28, 28, ... -/
def constantDraws : UniformDraws 28 30 :=
  ⟨fun _ => 28, fun _ => by beta_reduce; decide⟩

/-- The tracker after the calls `addCycle(startDate, endDate, symptoms)` of a list, made in
list order on `self`: the states that the menu loop can reach from `self`. -/
def PeriodTracker.addCycles (self : PeriodTracker) :
    List (String × String × List String) → PeriodTracker
  | [] => self
  | c :: rest => PeriodTracker.addCycles (self.addCycle c.1 c.2.1 c.2.2).1 rest

/-- The arguments of an `addCycle` call whose two dates are dates of the specification. -/
def callOfDates (c : Date × Date × List String) : String × String × List String :=
  (c.1.text, c.2.1.text, c.2.2)

open PeriodTracker

/-! ## Calendar lemmas -/

theorem isLeap_iff (y : Int) :
    isLeap y = true ↔ (y % 4 = 0 ∧ (y % 100 ≠ 0 ∨ y % 400 = 0)) := by
  simp [isLeap]

theorem leapsThruEndOf_pred (y : Int) :
    leapsThruEndOf (y - 1) = leapsThruEndOf y - (if isLeap y = true then 1 else 0) := by
  simp only [leapsThruEndOf, isLeap_iff]
  split_ifs with h <;> omega

theorem daysFromCivil_eq_marchDays (y mon d : Int) (h0 : 0 ≤ mon) (h1 : mon ≤ 11) :
    daysFromCivil y mon d =
      marchDays (if mon < 2 then y - 1 else y) (if mon < 2 then mon + 10 else mon - 2) d := by
  have hm : mon = 0 ∨ mon = 1 ∨ mon = 2 ∨ mon = 3 ∨ mon = 4 ∨ mon = 5 ∨ mon = 6 ∨ mon = 7 ∨
      mon = 8 ∨ mon = 9 ∨ mon = 10 ∨ mon = 11 := by omega
  have hp := leapsThruEndOf_pred y
  have h69 : leapsThruEndOf 1969 = 477 := by decide
  unfold daysFromCivil marchDays
  rw [h69]
  rcases hm with h | h | h | h | h | h | h | h | h | h | h | h <;> subst h <;>
    cases hl : isLeap y <;> simp [monYday, hl] at hp ⊢ <;> omega

/-- The cycle split of `civilFromDays` is a mixed-radix decomposition of the day count. -/
theorem civil_split (t qc r0 c r1 q r2 ry rd mp : Int)
    (hqc : qc = (t - 11017) / 146097) (hr0 : r0 = (t - 11017) % 146097)
    (hc : c = min (r0 / 36524) 3) (hr1 : r1 = r0 - c * 36524)
    (hq : q = min (r1 / 1461) 24) (hr2 : r2 = r1 - q * 1461)
    (hry : ry = min (r2 / 365) 3) (hrd : rd = r2 - ry * 365)
    (hmp : mp = (5 * rd + 2) / 153) :
    0 ≤ c ∧ c ≤ 3 ∧ 0 ≤ q ∧ q ≤ 24 ∧ 0 ≤ ry ∧ ry ≤ 3 ∧ 0 ≤ rd ∧ rd ≤ 365 ∧
    (rd = 365 → ry = 3 ∧ (q < 24 ∨ c = 3)) ∧ 0 ≤ mp ∧ mp ≤ 11 ∧
    t = 11017 + 146097 * qc + 36524 * c + 1461 * q + 365 * ry + rd := by
  omega

/-- Counting the days of the date of day `t` gives `t` back. -/
theorem daysFromCivil_civilFromDays (t : Int) :
    daysFromCivil (civilFromDays t).1 (civilFromDays t).2.1 (civilFromDays t).2.2 = t := by
  obtain ⟨h1, h2, h3, h4, h5, h6, h7, h8, h9, h10, h11, h12⟩ :=
    civil_split t _ _ _ _ _ _ _ _ _ rfl rfl rfl rfl rfl rfl rfl rfl rfl
  simp only [civilFromDays]
  generalize (t - 11017) / 146097 = qc at *
  generalize (t - 11017) % 146097 = r0 at *
  generalize min (r0 / 36524) 3 = c at *
  generalize r0 - c * 36524 = r1 at *
  generalize min (r1 / 1461) 24 = q at *
  generalize r1 - q * 1461 = r2 at *
  generalize min (r2 / 365) 3 = ry at *
  generalize r2 - ry * 365 = rd at *
  generalize hmp : (5 * rd + 2) / 153 = mp at *
  subst h12
  split_ifs with hm
  · simp only []
    rw [daysFromCivil_eq_marchDays _ _ _ (by omega) (by omega)]
    rw [if_pos (by omega), if_pos (by omega)]
    simp only [marchDays, leapsThruEndOf]
    omega
  · simp only []
    rw [daysFromCivil_eq_marchDays _ _ _ (by omega) (by omega)]
    rw [if_neg (by omega), if_neg (by omega)]
    simp only [marchDays, leapsThruEndOf]
    omega

/-- The date of any day count is a real calendar day: month 0..11, day within the month. -/
theorem civilFromDays_valid (t : Int) :
    0 ≤ (civilFromDays t).2.1 ∧ (civilFromDays t).2.1 ≤ 11 ∧ 1 ≤ (civilFromDays t).2.2 ∧
      (civilFromDays t).2.2 ≤ daysInMonth (civilFromDays t).1 (civilFromDays t).2.1 := by
  obtain ⟨h1, h2, h3, h4, h5, h6, h7, h8, h9, h10, h11, h12⟩ :=
    civil_split t _ _ _ _ _ _ _ _ _ rfl rfl rfl rfl rfl rfl rfl rfl rfl
  simp only [civilFromDays]
  generalize (t - 11017) / 146097 = qc at *
  generalize (t - 11017) % 146097 = r0 at *
  generalize min (r0 / 36524) 3 = c at *
  generalize r0 - c * 36524 = r1 at *
  generalize min (r1 / 1461) 24 = q at *
  generalize r1 - q * 1461 = r2 at *
  generalize min (r2 / 365) 3 = ry at *
  generalize r2 - ry * 365 = rd at *
  generalize hmp : (5 * rd + 2) / 153 = mp at *
  clear h12
  have hm : mp = 0 ∨ mp = 1 ∨ mp = 2 ∨ mp = 3 ∨ mp = 4 ∨ mp = 5 ∨ mp = 6 ∨ mp = 7 ∨
      mp = 8 ∨ mp = 9 ∨ mp = 10 ∨ mp = 11 := by omega
  rcases hm with h | h | h | h | h | h | h | h | h | h | h | h <;> subst h
  case inr.inr.inr.inr.inr.inr.inr.inr.inr.inr.inr =>
    simp only [daysInMonth]
    norm_num
    refine ⟨by omega, ?_⟩
    by_cases hl : isLeap (ry + 4 * q + 100 * c + 400 * qc + 2001) = true
    · rw [if_pos hl]; omega
    · rw [if_neg hl]
      have hl2 := mt (isLeap_iff _).2 hl
      omega
  all_goals (simp [daysInMonth]; omega)

theorem yearStart_mono (a b : Int) (h : a ≤ b) :
    365 * a + leapsThruEndOf a ≤ 365 * b + leapsThruEndOf b := by
  simp only [leapsThruEndOf]
  omega

theorem yearStart_succ (y : Int) :
    365 * (y + 1) + leapsThruEndOf (y + 1) =
      365 * y + leapsThruEndOf y + 365 + (if isLeap (y + 1) = true then 1 else 0) := by
  have h := leapsThruEndOf_pred (y + 1)
  simp only [add_sub_cancel_right] at h
  omega

theorem marchDays_lt (y1 mp1 d1 y2 mp2 d2 : Int)
    (ha : 0 ≤ mp1 ∧ mp1 ≤ 11) (hb : 0 ≤ mp2 ∧ mp2 ≤ 11) (hd2 : 1 ≤ d2)
    (hlen : mp1 ≤ 10 → d1 ≤ (153 * (mp1 + 1) + 2) / 5 - (153 * mp1 + 2) / 5)
    (hfeb : mp1 = 11 → d1 ≤ 28 + (if isLeap (y1 + 1) = true then 1 else 0))
    (hlt : y1 < y2 ∨ (y1 = y2 ∧ (mp1 < mp2 ∨ (mp1 = mp2 ∧ d1 < d2)))) :
    marchDays y1 mp1 d1 < marchDays y2 mp2 d2 := by
  simp only [marchDays]
  rcases hlt with h | ⟨h, h2⟩
  · have hA := yearStart_mono (y1 + 1) y2 (by omega)
    have hB := yearStart_succ y1
    have hlb : (0 : Int) ≤ (if isLeap (y1 + 1) = true then 1 else 0) := by
      split_ifs <;> decide
    generalize leapsThruEndOf (y1 + 1) = g1 at *
    generalize leapsThruEndOf y1 = g0 at *
    generalize leapsThruEndOf y2 = g2 at *
    generalize (if isLeap (y1 + 1) = true then (1 : Int) else 0) = lb at *
    have hC : (153 * mp1 + 2) / 5 + d1 ≤ 365 + lb := by
      by_cases h11 : mp1 = 11
      · have := hfeb h11
        omega
      · have := hlen (by omega)
        omega
    omega
  · subst h
    generalize leapsThruEndOf y1 = g0 at *
    rcases h2 with h2 | ⟨h2, h3⟩
    · have := hlen (by omega)
      omega
    · subst h2
      omega

theorem daysInMonth_march (y mon : Int) (h0 : 0 ≤ mon) (h1 : mon ≤ 11) (hne : mon ≠ 1) :
    daysInMonth y mon =
      (153 * ((if mon < 2 then mon + 10 else mon - 2) + 1) + 2) / 5
        - (153 * (if mon < 2 then mon + 10 else mon - 2) + 2) / 5 := by
  have hm : mon = 0 ∨ mon = 2 ∨ mon = 3 ∨ mon = 4 ∨ mon = 5 ∨ mon = 6 ∨ mon = 7 ∨
      mon = 8 ∨ mon = 9 ∨ mon = 10 ∨ mon = 11 := by omega
  rcases hm with h | h | h | h | h | h | h | h | h | h | h <;> subst h <;>
    simp [daysInMonth]

/-- Later calendar days have larger day counts. -/
theorem daysFromCivil_lt (y1 m1 d1 y2 m2 d2 : Int)
    (ha : 0 ≤ m1 ∧ m1 ≤ 11 ∧ 1 ≤ d1 ∧ d1 ≤ daysInMonth y1 m1)
    (hb : 0 ≤ m2 ∧ m2 ≤ 11 ∧ 1 ≤ d2 ∧ d2 ≤ daysInMonth y2 m2)
    (hlt : y1 < y2 ∨ (y1 = y2 ∧ (m1 < m2 ∨ (m1 = m2 ∧ d1 < d2)))) :
    daysFromCivil y1 m1 d1 < daysFromCivil y2 m2 d2 := by
  obtain ⟨ha0, ha1, ha2, ha3⟩ := ha
  obtain ⟨hb0, hb1, hb2, hb3⟩ := hb
  rw [daysFromCivil_eq_marchDays y1 m1 d1 ha0 ha1, daysFromCivil_eq_marchDays y2 m2 d2 hb0 hb1]
  apply marchDays_lt
  · split_ifs <;> omega
  · split_ifs <;> omega
  · exact hb2
  · intro h
    have hne : m1 ≠ 1 := by
      intro h1
      rw [h1] at h
      norm_num at h
    rw [daysInMonth_march y1 m1 ha0 ha1 hne] at ha3
    exact ha3
  · intro h
    have h1 : m1 = 1 := by
      split_ifs at h <;> omega
    subst h1
    simp only [daysInMonth] at ha3
    norm_num at ha3 ⊢
    split_ifs at ha3 ⊢ <;> omega
  · split_ifs <;> omega

/-! ## Lemmas on `mktime`, `get_time` and `put_time` -/

theorem mktime_valid (t : Tm) : (mktime t).1.Valid := by
  have h := civilFromDays_valid t.days
  simp only [Tm.Valid, mktime, sub_add_cancel]
  exact h

theorem Tm.days_eq_of_mon (t : Tm) (h0 : 0 ≤ t.tm_mon) (h1 : t.tm_mon ≤ 11) :
    t.days = daysFromCivil (t.tm_year + 1900) t.tm_mon t.tm_mday := by
  unfold Tm.days
  rw [Int.ediv_eq_zero_of_lt h0 (by omega), Int.emod_eq_of_lt h0 (by omega), add_zero]

theorem mktime_days (t : Tm) : (mktime t).1.days = t.days := by
  rw [Tm.days_eq_of_mon _ (mktime_valid t).1 (mktime_valid t).2.1]
  simp only [mktime, sub_add_cancel]
  exact daysFromCivil_civilFromDays t.days

theorem mktime_time (t : Tm) : (mktime t).2 = t.days * 86400 := rfl

theorem addDaysTm_valid (t : Tm) (n : Int) : (addDaysTm t n).Valid :=
  mktime_valid _

theorem addDaysTm_days (t : Tm) (n : Int) : (addDaysTm t n).days = t.days + n := by
  unfold addDaysTm
  rw [mktime_days]
  simp only [Tm.days, daysFromCivil]
  omega

theorem wrapInt64_of_range (x : Int) (h0 : -9223372036854775808 ≤ x)
    (h1 : x < 9223372036854775808) : wrapInt64 x = x := by
  unfold wrapInt64
  omega

theorem wrapInt64_range (x : Int) :
    -9223372036854775808 ≤ wrapInt64 x ∧ wrapInt64 x < 9223372036854775808 := by
  unfold wrapInt64
  omega

theorem wrapInt64_sub_wrapInt64 (a b : Int) :
    wrapInt64 (wrapInt64 a - wrapInt64 b) = wrapInt64 (a - b) := by
  unfold wrapInt64
  omega

/-- The day difference of the source in terms of the two day counts: the exact difference,
taken to nanoseconds, wrapped to 64 bits and divided back. -/
theorem calculateDaysDifference_wrap (date1 date2 : String) :
    PeriodTracker.calculateDaysDifference date1 date2
      = Int.tdiv (Int.tdiv (wrapInt64
          (((get_time date2).days - (get_time date1).days) * 86400000000000)) 1000000000)
          86400 := by
  simp only [PeriodTracker.calculateDaysDifference, mktime_time, from_time_t,
    wrapInt64_sub_wrapInt64]
  have h : (get_time date2).days * 86400 * 1000000000 - (get_time date1).days * 86400 * 1000000000
      = ((get_time date2).days - (get_time date1).days) * 86400000000000 := by ring
  rw [h]
  rfl

/-- Up to 106751 days either way the day difference of the source is the exact difference
of the two day counts. -/
theorem calculateDaysDifference_eq (date1 date2 : String)
    (h : -106751 ≤ (get_time date2).days - (get_time date1).days ∧
      (get_time date2).days - (get_time date1).days ≤ 106751) :
    PeriodTracker.calculateDaysDifference date1 date2
      = (get_time date2).days - (get_time date1).days := by
  rw [calculateDaysDifference_wrap]
  generalize (get_time date2).days - (get_time date1).days = n at h ⊢
  rw [wrapInt64_of_range _ (by omega) (by omega)]
  have e1 : n * 86400000000000 = n * 86400 * 1000000000 := by ring
  rw [e1, Int.mul_tdiv_cancel _ (by decide), Int.mul_tdiv_cancel _ (by decide)]

theorem int_tdiv_bounds (x k B : Int) (hk : 0 < k) (h0 : -(B * k + (k - 1)) ≤ x)
    (h1 : x ≤ B * k + (k - 1)) : -B ≤ Int.tdiv x k ∧ Int.tdiv x k ≤ B := by
  rcases Int.lt_or_le x 0 with hx | hx
  · have e : Int.tdiv x k = -(Int.tdiv (-x) k) := by rw [Int.neg_tdiv, neg_neg]
    rw [e, Int.tdiv_eq_ediv (by omega) (le_of_lt hk)]
    have h2 : (-x) / k < B + 1 := by
      apply Int.ediv_lt_of_lt_mul hk
      linarith
    have h3 : 0 ≤ (-x) / k := Int.ediv_nonneg (by omega) (le_of_lt hk)
    omega
  · rw [Int.tdiv_eq_ediv hx (le_of_lt hk)]
    have h2 : x / k < B + 1 := by
      apply Int.ediv_lt_of_lt_mul hk
      linarith
    have h3 : 0 ≤ x / k := Int.ediv_nonneg hx (le_of_lt hk)
    omega

theorem digitChar_isDigit (n : Nat) : (digitChar n).isDigit = true := by
  unfold digitChar
  have h : n % 10 < 10 := Nat.mod_lt _ (by decide)
  generalize n % 10 = k at h
  interval_cases k <;> decide

theorem digitChar_toNat (n : Nat) : (digitChar n).toNat - 48 = n % 10 := by
  unfold digitChar
  have h : n % 10 < 10 := Nat.mod_lt _ (by decide)
  generalize n % 10 = k at h
  interval_cases k <;> decide

theorem extractNum_two (a b lo hi : Nat) (rest : List Char)
    (h : lo ≤ a % 10 * 10 + b % 10) (h2 : a % 10 * 10 + b % 10 ≤ hi) :
    extractNum (digitChar a :: digitChar b :: rest) lo hi 2
      = some (a % 10 * 10 + b % 10, rest) := by
  simp only [extractNum, extractDigits, digitChar_isDigit, digitChar_toNat, if_true]
  rw [if_pos ⟨by omega, by omega, by omega⟩]
  simp

theorem extractNum_four (a b c d lo hi : Nat) (rest : List Char)
    (h : lo ≤ ((a % 10 * 10 + b % 10) * 10 + c % 10) * 10 + d % 10)
    (h2 : ((a % 10 * 10 + b % 10) * 10 + c % 10) * 10 + d % 10 ≤ hi) :
    extractNum (digitChar a :: digitChar b :: digitChar c :: digitChar d :: rest) lo hi 4
      = some (((a % 10 * 10 + b % 10) * 10 + c % 10) * 10 + d % 10, rest) := by
  simp only [extractNum, extractDigits, digitChar_isDigit, digitChar_toNat, if_true]
  rw [if_pos ⟨by omega, by omega, by omega⟩]
  simp

theorem get_time_text_of_bounds (d : Date) (h1 : 1 ≤ d.day) (h2 : d.day ≤ 31) (h3 : 1 ≤ d.month)
    (h4 : d.month ≤ 12) (h5 : d.year ≤ 9999) : get_time d.text = d.toTm := by
  obtain ⟨day, month, year⟩ := d
  simp only at h1 h2 h3 h4 h5
  simp only [get_time, Date.text, Date.toTm, String.toList]
  rw [extractNum_two _ _ _ _ _ (by omega) (by omega)]
  simp only []
  rw [extractNum_two _ _ _ _ _ (by omega) (by omega)]
  simp only []
  rw [extractNum_four _ _ _ _ _ _ _ (by omega) (by omega)]
  simp only [Tm.mk.injEq]
  omega

theorem natDigits_small (fuel n : Nat) (h : n < 10) : natDigits (fuel + 1) n = [digitChar n] := by
  simp [natDigits, h]

theorem natDigits_step (fuel n : Nat) (h : 10 ≤ n) :
    natDigits (fuel + 1) n = natDigits fuel (n / 10) ++ [digitChar n] := by
  simp [natDigits, Nat.not_lt.2 h]

theorem natDigits_year (y : Nat) (h : y ≤ 9999) :
    natDigits (y + 1) y =
      if y < 10 then [digitChar y]
      else if y < 100 then [digitChar (y / 10), digitChar y]
      else if y < 1000 then [digitChar (y / 10 / 10), digitChar (y / 10), digitChar y]
      else [digitChar (y / 10 / 10 / 10), digitChar (y / 10 / 10), digitChar (y / 10), digitChar y] := by
  split_ifs with h1 h2 h3
  · exact natDigits_small _ _ h1
  · obtain ⟨f, rfl⟩ : ∃ f, y = f + 1 := ⟨y - 1, by omega⟩
    rw [natDigits_step _ _ (by omega), natDigits_small _ _ (by omega)]
    rfl
  · obtain ⟨f, rfl⟩ : ∃ f, y = f + 2 := ⟨y - 2, by omega⟩
    rw [natDigits_step _ _ (by omega), natDigits_step _ _ (by omega),
      natDigits_small _ _ (by omega)]
    rfl
  · obtain ⟨f, rfl⟩ : ∃ f, y = f + 3 := ⟨y - 3, by omega⟩
    rw [natDigits_step _ _ (by omega), natDigits_step _ _ (by omega),
      natDigits_step _ _ (by omega), natDigits_small _ _ (by omega)]
    rfl

theorem twoDigits_eq (n : Int) (h0 : 0 ≤ n) (h1 : n ≤ 99) :
    twoDigits n = [digitChar (n.toNat / 10), digitChar n.toNat] := by
  obtain ⟨k, rfl⟩ := Int.eq_ofNat_of_zero_le h0
  simp only [twoDigits, intDecimal, Int.toNat_ofNat]
  have hk : k ≤ 99 := by omega
  by_cases h10 : k < 10
  · rw [if_pos ⟨h0, by omega⟩, if_neg (by omega), natDigits_small _ _ h10]
    have hz : k / 10 = 0 := by omega
    rw [hz]
    rfl
  · rw [if_neg (by omega), if_neg (by omega)]
    obtain ⟨f, rfl⟩ : ∃ f, k = f + 1 := ⟨k - 1, by omega⟩
    rw [natDigits_step _ _ (by omega), natDigits_small _ _ (by omega)]
    rfl

theorem extractNum_year (y : Int) (h0 : 0 ≤ y) (h1 : y ≤ 9999) :
    extractNum (intDecimal y) 0 9999 4 = some (y.toNat, []) := by
  obtain ⟨k, rfl⟩ := Int.eq_ofNat_of_zero_le h0
  have hk : k ≤ 9999 := by omega
  simp only [intDecimal, Int.toNat_ofNat]
  rw [if_neg (by omega), natDigits_year k hk]
  split_ifs with h1 h2 h3 <;>
    simp only [extractNum, extractDigits, digitChar_isDigit, digitChar_toNat, if_true] <;>
    rw [if_pos ⟨by omega, by omega, by omega⟩] <;>
    simp <;> omega

/-- Text written by `put_time` is read back by `get_time` as the same fields, as long as the
year has at most four digits and is not negative. -/
theorem get_time_put_time (t : Tm) (hd : 1 ≤ t.tm_mday ∧ t.tm_mday ≤ 31)
    (hm : 0 ≤ t.tm_mon ∧ t.tm_mon ≤ 11) (hy : 0 ≤ t.tm_year + 1900 ∧ t.tm_year + 1900 ≤ 9999) :
    get_time (put_time t) = t := by
  obtain ⟨d, m, y⟩ := t
  simp only at hd hm hy
  simp only [get_time, put_time, String.toList]
  rw [twoDigits_eq d (by omega) (by omega), twoDigits_eq (m + 1) (by omega) (by omega)]
  simp only [List.cons_append, List.nil_append]
  rw [extractNum_two _ _ _ _ _ (by omega) (by omega)]
  simp only []
  rw [extractNum_two _ _ _ _ _ (by omega) (by omega)]
  simp only []
  rw [extractNum_year _ hy.1 hy.2]
  simp only [Tm.mk.injEq]
  omega

/-- Two real calendar days with the same day count are the same day. -/
theorem daysFromCivil_inj (y1 m1 d1 y2 m2 d2 : Int)
    (ha : 0 ≤ m1 ∧ m1 ≤ 11 ∧ 1 ≤ d1 ∧ d1 ≤ daysInMonth y1 m1)
    (hb : 0 ≤ m2 ∧ m2 ≤ 11 ∧ 1 ≤ d2 ∧ d2 ≤ daysInMonth y2 m2)
    (h : daysFromCivil y1 m1 d1 = daysFromCivil y2 m2 d2) : y1 = y2 ∧ m1 = m2 ∧ d1 = d2 := by
  by_contra hne
  have hcases : (y1 < y2 ∨ (y1 = y2 ∧ (m1 < m2 ∨ (m1 = m2 ∧ d1 < d2)))) ∨
      (y2 < y1 ∨ (y2 = y1 ∧ (m2 < m1 ∨ (m2 = m1 ∧ d2 < d1)))) := by omega
  rcases hcases with hlt | hlt
  · have := daysFromCivil_lt y1 m1 d1 y2 m2 d2 ha hb hlt
    omega
  · have := daysFromCivil_lt y2 m2 d2 y1 m1 d1 hb ha hlt
    omega

/-- The date of the day count of a real calendar day is that day. -/
theorem civilFromDays_daysFromCivil (y mon d : Int)
    (h : 0 ≤ mon ∧ mon ≤ 11 ∧ 1 ≤ d ∧ d ≤ daysInMonth y mon) :
    civilFromDays (daysFromCivil y mon d) = (y, mon, d) := by
  have hv := civilFromDays_valid (daysFromCivil y mon d)
  have hr := daysFromCivil_civilFromDays (daysFromCivil y mon d)
  obtain ⟨e1, e2, e3⟩ := daysFromCivil_inj _ _ _ _ _ _ hv h hr
  exact Prod.ext e1 (Prod.ext e2 e3)

/-- The year of a day count grows with the day count. -/
theorem civilFromDays_year_mono (t1 t2 : Int) (h : t1 ≤ t2) :
    (civilFromDays t1).1 ≤ (civilFromDays t2).1 := by
  by_contra hlt
  have h1 := daysFromCivil_civilFromDays t1
  have h2 := daysFromCivil_civilFromDays t2
  have := daysFromCivil_lt _ _ _ _ _ _ (civilFromDays_valid t2) (civilFromDays_valid t1)
    (Or.inl (by omega))
  omega

theorem daysInMonth_le (y mon : Int) : daysInMonth y mon ≤ 31 := by
  unfold daysInMonth
  split_ifs <;> decide

theorem Tm.Valid.mday_le {t : Tm} (h : t.Valid) : t.tm_mday ≤ 31 :=
  le_trans h.2.2.2 (daysInMonth_le _ _)

/-- On a normalised structure `mktime` changes nothing. -/
theorem mktime_of_valid (t : Tm) (h : t.Valid) : (mktime t).1 = t := by
  obtain ⟨d, m, y⟩ := t
  simp only [Tm.Valid] at h
  have hd := Tm.days_eq_of_mon ⟨d, m, y⟩ h.1 h.2.1
  simp only at hd
  simp only [mktime]
  rw [hd, civilFromDays_daysFromCivil _ _ _ h]
  simp

theorem Date.Valid.toTm_valid {d : Date} (h : d.Valid) : d.toTm.Valid := by
  obtain ⟨h1, h2, h3, h4, h5, h6⟩ := h
  simp only [Tm.Valid, Date.toTm, sub_add_cancel]
  refine ⟨by omega, by omega, by omega, h6⟩

theorem Date.Valid.get_time_text {d : Date} (h : d.Valid) : get_time d.text = d.toTm := by
  have hv := h.toTm_valid.mday_le
  obtain ⟨h1, h2, h3, h4, h5, h6⟩ := h
  simp only [Date.toTm] at hv
  exact get_time_text_of_bounds d h5 (by omega) h3 h4 h2

theorem Date.Valid.toTm_days {d : Date} (h : d.Valid) :
    d.toTm.days = daysFromCivil d.year ((d.month : Int) - 1) d.day := by
  have hv := h.toTm_valid
  rw [Tm.days_eq_of_mon _ hv.1 hv.2.1]
  simp [Date.toTm]

/-- Chronological order of valid dates is the order of their day counts. -/
theorem Date.days_le_of_le (a b : Date) (ha : a.Valid) (hb : b.Valid) (h : a.le b) :
    a.toTm.days ≤ b.toTm.days := by
  rw [ha.toTm_days, hb.toTm_days]
  have va := ha.toTm_valid
  have vb := hb.toTm_valid
  simp only [Tm.Valid, Date.toTm, sub_add_cancel] at va vb
  by_cases he : a.year = b.year ∧ a.month = b.month ∧ a.day = b.day
  · rw [he.1, he.2.1, he.2.2]
  · apply le_of_lt
    apply daysFromCivil_lt _ _ _ _ _ _ va vb
    unfold Date.le at h
    omega

theorem int_tdiv_two_eq_floor (x : Int) (h : 0 ≤ x) : Int.tdiv x 2 = ⌊(x : ℚ) / 2⌋ := by
  rw [Int.tdiv_eq_ediv h (by decide)]
  have := Rat.floor_intCast_div_natCast x 2
  simpa using this.symm

theorem checkIrregularLoop_eq (s : PeriodTracker) :
    ∀ (todo i : Nat), 1 ≤ i → i + todo = s.cycles.length →
      checkIrregularLoop s todo i =
        ((List.range' i todo).filter (fun i => decide
          (5 < (calculateDaysDifference (s.startAt (i - 1)) (s.startAt i)
            - s.averageCycleLength).natAbs))).map
          (fun i => (s.startAt (i - 1), s.startAt i)) := by
  intro todo
  induction todo with
  | zero => intro i _ _; rfl
  | succ todo ih =>
    intro i hi hlen
    have h1 : i - 1 < s.cycles.length := by omega
    have h2 : i < s.cycles.length := by omega
    have e1 : s.startAt (i - 1) = (s.cycles[i - 1]).startDate := by
      simp [PeriodTracker.startAt, List.getElem?_eq_getElem h1]
    have e2 : s.startAt i = (s.cycles[i]).startDate := by
      simp [PeriodTracker.startAt, List.getElem?_eq_getElem h2]
    simp only [checkIrregularLoop, List.getElem?_eq_getElem h1, List.getElem?_eq_getElem h2,
      List.range'_succ, List.filter_cons]
    rw [ih (i + 1) (by omega) (by omega), ← e1, ← e2]
    by_cases hflag : 5 < (calculateDaysDifference (s.startAt (i - 1)) (s.startAt i)
        - s.averageCycleLength).natAbs
    · simp [hflag]
    · simp [hflag]

theorem Tm.days_add_mday (t : Tm) (n : Int) :
    ({ t with tm_mday := t.tm_mday + n } : Tm).days = t.days + n := by
  simp only [Tm.days, daysFromCivil]
  omega

theorem mktime_congr (t u : Tm) (h : t.days = u.days) : (mktime t).1 = (mktime u).1 := by
  simp only [mktime, h]

theorem mktime_sub_mday (t : Tm) (k : Int) :
    (mktime { t with tm_mday := t.tm_mday - k }).1 = addDaysTm t (-k) := by
  simp only [addDaysTm, sub_eq_add_neg]

/-- Moving a `std::tm` by `m` days and then by `n` days is moving it by `m + n` days. -/
theorem addDaysTm_addDaysTm (t : Tm) (m n : Int) :
    addDaysTm (addDaysTm t m) n = addDaysTm t (m + n) := by
  unfold addDaysTm
  apply mktime_congr
  rw [Tm.days_add_mday, Tm.days_add_mday, mktime_days, Tm.days_add_mday]
  omega

theorem civilFromDays_year_range (t : Int) (h0 : -719528 ≤ t) (h1 : t ≤ 2932896) :
    0 ≤ (civilFromDays t).1 ∧ (civilFromDays t).1 ≤ 9999 := by
  have a := civilFromDays_year_mono (-719528) t h0
  have b := civilFromDays_year_mono t 2932896 h1
  have ea : (civilFromDays (-719528)).1 = 0 := by decide
  have eb : (civilFromDays 2932896).1 = 9999 := by decide
  omega

theorem addDaysTm_year_range (t : Tm) (n : Int) (h0 : -719528 ≤ t.days + n)
    (h1 : t.days + n ≤ 2932896) :
    0 ≤ (addDaysTm t n).tm_year + 1900 ∧ (addDaysTm t n).tm_year + 1900 ≤ 9999 := by
  have h := civilFromDays_year_range (t.days + n) h0 h1
  simp only [addDaysTm, mktime, Tm.days_add_mday, sub_add_cancel]
  exact h

/-- Reading back the text of a moved date whose year lies in 0..9999. -/
theorem get_time_put_time_addDaysTm (t : Tm) (n : Int) (h0 : -719528 ≤ t.days + n)
    (h1 : t.days + n ≤ 2932896) : get_time (put_time (addDaysTm t n)) = addDaysTm t n := by
  have hv := addDaysTm_valid t n
  exact get_time_put_time _ ⟨hv.2.2.1, hv.mday_le⟩ ⟨hv.1, hv.2.1⟩
    (addDaysTm_year_range t n h0 h1)

/-- Day counts of valid dates: 01-01-0001 is day -719162 and 31-12-9999 is day 2932896. -/
theorem Date.Valid.days_range {d : Date} (h : d.Valid) :
    -719162 ≤ d.toTm.days ∧ d.toTm.days ≤ 2932896 := by
  have hmin : (Date.mk 1 1 1).Valid := by decide
  have hmax : (Date.mk 31 12 9999).Valid := by decide
  have e1 : (Date.mk 1 1 1).toTm.days = -719162 := by decide
  have e2 : (Date.mk 31 12 9999).toTm.days = 2932896 := by decide
  have hv := h.toTm_valid.mday_le
  obtain ⟨h1, h2, h3, h4, h5, h6⟩ := h
  simp only [Date.toTm] at hv
  have a := Date.days_le_of_le ⟨1, 1, 1⟩ d hmin ⟨h1, h2, h3, h4, h5, h6⟩
    (by unfold Date.le; simp only; omega)
  have b := Date.days_le_of_le d ⟨31, 12, 9999⟩ ⟨h1, h2, h3, h4, h5, h6⟩ hmax
    (by unfold Date.le; simp only; omega)
  omega

theorem extractNum_some {cs : List Char} {lo hi len v : Nat} {r : List Char}
    (h : extractNum cs lo hi len = some (v, r)) : lo ≤ v ∧ v ≤ hi := by
  simp only [extractNum] at h
  split_ifs at h with hc
  simp only [Option.some.injEq, Prod.mk.injEq] at h
  rw [← h.1]
  exact hc.2

/-- Whatever the text, `get_time` leaves a day 0..31, a month 0..11 and a year 0..9999. -/
theorem get_time_range (s : String) :
    (0 ≤ (get_time s).tm_mday ∧ (get_time s).tm_mday ≤ 31) ∧
    (0 ≤ (get_time s).tm_mon ∧ (get_time s).tm_mon ≤ 11) ∧
    (0 ≤ (get_time s).tm_year + 1900 ∧ (get_time s).tm_year + 1900 ≤ 9999) := by
  unfold get_time
  split
  · simp
  · rename_i d r1 h1
    have b1 := extractNum_some h1
    split
    · rename_i r2
      split
      · simp only
        omega
      · rename_i m r3 h2
        have b2 := extractNum_some h2
        split
        · rename_i r4
          split
          · simp only
            omega
          · rename_i y r5 h3
            have b3 := extractNum_some h3
            simp only
            omega
        · simp only
          omega
    · simp only
      omega

/-- Day counts of the structures that `get_time` can leave: between 00-01-0000 and
31-12-9999. -/
theorem get_time_days_range (s : String) :
    -719529 ≤ (get_time s).days ∧ (get_time s).days ≤ 2932896 := by
  obtain ⟨hd, hm, hy⟩ := get_time_range s
  generalize get_time s = t at *
  obtain ⟨d, m, y⟩ := t
  simp only at hd hm hy
  rw [Tm.days_eq_of_mon _ hm.1 hm.2]
  simp only
  have lo : daysFromCivil 0 0 1 ≤ daysFromCivil (y + 1900) m 1 := by
    by_cases he : y + 1900 = 0 ∧ m = 0
    · rw [he.1, he.2]
    · apply le_of_lt
      apply daysFromCivil_lt
      · exact ⟨le_refl _, by decide, le_refl _, by decide⟩
      · refine ⟨hm.1, hm.2, le_refl _, ?_⟩
        unfold daysInMonth
        split_ifs <;> decide
      · omega
  have hi : daysFromCivil (y + 1900) m 1 ≤ daysFromCivil 9999 11 1 := by
    by_cases he : y + 1900 = 9999 ∧ m = 11
    · rw [he.1, he.2]
    · apply le_of_lt
      apply daysFromCivil_lt
      · refine ⟨hm.1, hm.2, le_refl _, ?_⟩
        unfold daysInMonth
        split_ifs <;> decide
      · exact ⟨by decide, le_refl _, by decide, by decide⟩
      · omega
  have e0 : daysFromCivil 0 0 1 = -719528 := by decide
  have e1 : daysFromCivil 9999 11 1 = 2932866 := by decide
  have el : daysFromCivil (y + 1900) m d = daysFromCivil (y + 1900) m 1 + (d - 1) := by
    simp only [daysFromCivil]
    omega
  omega

/-- No day difference is larger than 106751 days either way; all fit an `int`. -/
theorem calculateDaysDifference_range (date1 date2 : String) :
    -106751 ≤ PeriodTracker.calculateDaysDifference date1 date2 ∧
      PeriodTracker.calculateDaysDifference date1 date2 ≤ 106751 := by
  rw [calculateDaysDifference_wrap]
  have hw := wrapInt64_range
    (((get_time date2).days - (get_time date1).days) * 86400000000000)
  generalize wrapInt64 (((get_time date2).days - (get_time date1).days) * 86400000000000) = w
    at hw ⊢
  have h1 := int_tdiv_bounds w 1000000000 9223372036 (by decide) (by omega) (by omega)
  exact int_tdiv_bounds _ 86400 106751 (by decide) (by omega) (by omega)

theorem addDaysTm_year (t : Tm) (n : Int) :
    (addDaysTm t n).tm_year + 1900 = (civilFromDays (t.days + n)).1 := by
  simp only [addDaysTm, mktime, Tm.days_add_mday, sub_add_cancel]

theorem days_le_of_year_le (t : Int) (h : (civilFromDays t).1 ≤ 9999) : t ≤ 2932896 := by
  by_contra hlt
  have a := civilFromDays_year_mono 2932897 t (by omega)
  have e : (civilFromDays 2932897).1 = 10000 := by decide
  omega

theorem healthRemindersLoop_eq (symptoms : List String) :
    healthRemindersLoop symptoms = symptoms.filterMap advisoryFor := by
  induction symptoms with
  | nil => rfl
  | cons t rest ih =>
    simp only [healthRemindersLoop, List.filterMap_cons, advisoryFor]
    split_ifs <;> simp [ih]

/-- Day count of 1 January of the year `Y`, read from its text. -/
theorem get_time_jan1_days (Y : Nat) (hY : Y ≤ 9999) :
    (get_time (Date.mk 1 1 Y).text).days = daysFromCivil Y 0 1 := by
  rw [get_time_text_of_bounds _ (le_refl 1) (by norm_num) (le_refl 1) (by norm_num) hY,
    Tm.days_eq_of_mon _ (by norm_num [Date.toTm]) (by norm_num [Date.toTm])]
  simp [Date.toTm]

theorem daysFromCivil_next_year (y : Int) :
    daysFromCivil (y + 1) 0 1 - daysFromCivil y 0 1 = 365 + (if isLeap y = true then 1 else 0) := by
  have hp := leapsThruEndOf_pred y
  simp only [daysFromCivil, monYday, add_sub_cancel_right]
  norm_num
  omega

theorem int_tdiv_two_eq_ceil (x : Int) (h : x < 0) : Int.tdiv x 2 = ⌈(x : ℚ) / 2⌉ := by
  have h1 : Int.tdiv x 2 = -(Int.tdiv (-x) 2) := by rw [Int.neg_tdiv, neg_neg]
  rw [h1, int_tdiv_two_eq_floor (-x) (by omega), ← Int.ceil_neg]
  congr 1
  push_cast
  ring

theorem int_floor_half (x : Int) : ⌊(x : ℚ) / 2⌋ = x / 2 := by
  have := Rat.floor_intCast_div_natCast x 2
  simpa using this

/-- A strictly earlier valid date has a strictly smaller day count. -/
theorem Date.days_lt_of_ne (a b : Date) (ha : a.Valid) (hb : b.Valid) (h : a.le b)
    (hne : a ≠ b) : a.toTm.days < b.toTm.days := by
  rw [ha.toTm_days, hb.toTm_days]
  have va := ha.toTm_valid
  have vb := hb.toTm_valid
  simp only [Tm.Valid, Date.toTm, sub_add_cancel] at va vb
  apply daysFromCivil_lt _ _ _ _ _ _ va vb
  have hne2 : ¬ (a.year = b.year ∧ a.month = b.month ∧ a.day = b.day) := by
    intro he
    apply hne
    cases a
    cases b
    simp only at he
    simp only [Date.mk.injEq]
    exact ⟨he.2.2, he.2.1, he.1⟩
  unfold Date.le at h
  omega

/-- The cycle list after a run of `addCycle` calls: the old list with one cycle per call. -/
theorem addCycles_cycles (calls : List (String × String × List String)) :
    ∀ s : PeriodTracker, (s.addCycles calls).cycles
      = s.cycles ++ calls.map (fun c => ⟨c.1, c.2.1, c.2.2⟩) := by
  induction calls with
  | nil => intro s; simp [PeriodTracker.addCycles]
  | cons c rest ih =>
    intro s
    simp only [PeriodTracker.addCycles, ih, List.map_cons]
    simp [addCycle]

theorem le_foldr_max_init (b : Int) (l : List Int) : b ≤ List.foldr max b l := by
  induction l with
  | nil => exact le_refl b
  | cons x rest ih => exact le_trans ih (le_max_right _ _)

theorem le_foldr_max_of_mem (b x : Int) (l : List Int) (h : x ∈ l) :
    x ≤ List.foldr max b l := by
  induction l with
  | nil => simp at h
  | cons y rest ih =>
    rcases List.mem_cons.1 h with he | hm
    · rw [he]
      exact le_max_left _ _
    · exact le_trans (ih hm) (le_max_right _ _)

theorem int_tdiv_two_between (a l : Int) :
    min a l ≤ Int.tdiv (a + l) 2 ∧ Int.tdiv (a + l) 2 ≤ max a l := by
  rcases Int.lt_or_le (a + l) 0 with hx | hx
  · have h1 : Int.tdiv (a + l) 2 = -(Int.tdiv (-(a + l)) 2) := by rw [Int.neg_tdiv, neg_neg]
    rw [h1, Int.tdiv_eq_ediv (by omega) (by decide)]
    omega
  · rw [Int.tdiv_eq_ediv hx (by decide)]
    omega

/-- A run of `addCycle` calls with lengths in `0 .. B` keeps an average in `0 .. B` there. -/
theorem addCycles_average_bounds (B : Int) (calls : List (String × String × List String))
    (hL : ∀ c ∈ calls, 0 ≤ calculateDaysDifference c.1 c.2.1 ∧
      calculateDaysDifference c.1 c.2.1 ≤ B) :
    ∀ s : PeriodTracker, 0 ≤ s.averageCycleLength → s.averageCycleLength ≤ B →
      0 ≤ (s.addCycles calls).averageCycleLength ∧ (s.addCycles calls).averageCycleLength ≤ B := by
  induction calls with
  | nil => intro s h0 h1; exact ⟨h0, h1⟩
  | cons c rest ih =>
    intro s h0 h1
    have hc := hL c (List.mem_cons_self _ _)
    have hb := int_tdiv_two_between s.averageCycleLength (calculateDaysDifference c.1 c.2.1)
    apply ih (fun d hd => hL d (List.mem_cons_of_mem _ hd))
    · show 0 ≤ Int.tdiv (s.averageCycleLength + calculateDaysDifference c.1 c.2.1) 2
      omega
    · show Int.tdiv (s.averageCycleLength + calculateDaysDifference c.1 c.2.1) 2 ≤ B
      omega

/-- A valid date with a year of four significant digits is written by `put_time` exactly as
its text `dd-mm-yyyy`. -/
theorem put_time_toTm (d : Date) (hv : d.Valid) (hy : 1000 ≤ d.year) :
    put_time d.toTm = d.text := by
  have hm := hv.toTm_valid.mday_le
  obtain ⟨h1, h2, h3, h4, h5, h6⟩ := hv
  obtain ⟨day, month, year⟩ := d
  simp only [Date.toTm] at hm h1 h2 h3 h4 h5 hy
  simp only [put_time, Date.toTm, Date.text, sub_add_cancel]
  rw [twoDigits_eq (day : Int) (by omega) (by omega),
    twoDigits_eq (month : Int) (by omega) (by omega)]
  simp only [intDecimal, Int.toNat_ofNat]
  rw [if_neg (by omega), natDigits_year year h2, if_neg (by omega), if_neg (by omega),
    if_neg (by omega)]
  simp only [List.cons_append, List.nil_append, Nat.div_div_eq_div_mul]

/-- The two predictions of `predictFuturePeriods`, written out: the running `std::tm` is the
last end date moved by the first length, then by both. -/
theorem predictFuturePeriods_eq (gen : UniformDraws 28 30) (s : PeriodTracker)
    (last : PeriodTracker.Cycle) (hlast : s.cycles.getLast? = some last) :
    (predictFuturePeriods gen s).2 = some
      [⟨put_time (addDaysTm (get_time last.endDate) (gen.draw 0)),
          (calculateOvulationAndFertility
            (put_time (addDaysTm (get_time last.endDate) (gen.draw 0)))).1,
          (calculateOvulationAndFertility
            (put_time (addDaysTm (get_time last.endDate) (gen.draw 0)))).2.1,
          (calculateOvulationAndFertility
            (put_time (addDaysTm (get_time last.endDate) (gen.draw 0)))).2.2⟩,
       ⟨put_time (addDaysTm (get_time last.endDate) (gen.draw 0 + gen.draw 1)),
          (calculateOvulationAndFertility
            (put_time (addDaysTm (get_time last.endDate) (gen.draw 0 + gen.draw 1)))).1,
          (calculateOvulationAndFertility
            (put_time (addDaysTm (get_time last.endDate) (gen.draw 0 + gen.draw 1)))).2.1,
          (calculateOvulationAndFertility
            (put_time (addDaysTm (get_time last.endDate) (gen.draw 0 + gen.draw 1)))).2.2⟩] := by
  simp only [predictFuturePeriods, hlast, predictLoop, zero_add, ← addDaysTm.eq_1,
    addDaysTm_addDaysTm]

/-- A year 10000 is written with five digits, of which `get_time` reads the first four: the
text read back has the same day and month and the year 1000. -/
theorem get_time_put_time_year_10000 (t : Tm) (hd : 1 ≤ t.tm_mday ∧ t.tm_mday ≤ 31)
    (hm : 0 ≤ t.tm_mon ∧ t.tm_mon ≤ 11) (hy : t.tm_year + 1900 = 10000) :
    get_time (put_time t) = ⟨t.tm_mday, t.tm_mon, 1000 - 1900⟩ := by
  obtain ⟨d, m, y⟩ := t
  simp only at hd hm hy
  have hyear : extractNum (intDecimal (y + 1900)) 0 9999 4 = some (1000, ['0']) := by
    rw [hy]
    decide
  simp only [get_time, put_time, String.toList]
  rw [twoDigits_eq d (by omega) (by omega), twoDigits_eq (m + 1) (by omega) (by omega)]
  simp only [List.cons_append, List.nil_append]
  rw [extractNum_two _ _ _ _ _ (by omega) (by omega)]
  simp only []
  rw [extractNum_two _ _ _ _ _ (by omega) (by omega)]
  simp only []
  rw [hyear]
  simp only [Tm.mk.injEq]
  omega

theorem monYday_nonneg (leap : Bool) (mon : Int) (h0 : 0 ≤ mon) (h1 : mon ≤ 11) :
    0 ≤ monYday leap mon := by
  have hm : mon = 0 ∨ mon = 1 ∨ mon = 2 ∨ mon = 3 ∨ mon = 4 ∨ mon = 5 ∨ mon = 6 ∨ mon = 7 ∨
      mon = 8 ∨ mon = 9 ∨ mon = 10 ∨ mon = 11 := by omega
  rcases hm with h | h | h | h | h | h | h | h | h | h | h | h <;> subst h <;>
    cases leap <;> decide

/-- The printed ovulation date and fertile window of a start text that is read as a day not
before 17-01-0000: the day differences on the texts are 14, 2 and 1. -/
theorem calculateOvulationAndFertility_differences (p : String)
    (h : -719512 ≤ (get_time p).days) :
    calculateDaysDifference (calculateOvulationAndFertility p).1 p = 14 ∧
    calculateDaysDifference (calculateOvulationAndFertility p).2.1
      (calculateOvulationAndFertility p).1 = 2 ∧
    calculateDaysDifference (calculateOvulationAndFertility p).1
      (calculateOvulationAndFertility p).2.2 = 1 := by
  have hr := get_time_days_range p
  have e3 : (mktime { addDaysTm (addDaysTm (get_time p) (-14)) (-2) with
      tm_mday := (addDaysTm (addDaysTm (get_time p) (-14)) (-2)).tm_mday + 3 }).1
        = addDaysTm (addDaysTm (addDaysTm (get_time p) (-14)) (-2)) 3 := rfl
  have r1 : (calculateOvulationAndFertility p).1 = put_time (addDaysTm (get_time p) (-14)) := by
    simp only [calculateOvulationAndFertility, mktime_sub_mday]
  have r2 : (calculateOvulationAndFertility p).2.1
      = put_time (addDaysTm (get_time p) (-14 + -2)) := by
    simp only [calculateOvulationAndFertility, mktime_sub_mday, addDaysTm_addDaysTm]
  have r3 : (calculateOvulationAndFertility p).2.2
      = put_time (addDaysTm (get_time p) (-14 + -2 + 3)) := by
    simp only [calculateOvulationAndFertility, mktime_sub_mday]
    rw [e3, addDaysTm_addDaysTm, addDaysTm_addDaysTm, add_assoc]
  have g1 := get_time_put_time_addDaysTm (get_time p) (-14) (by omega) (by omega)
  have g2 := get_time_put_time_addDaysTm (get_time p) (-14 + -2) (by omega) (by omega)
  have g3 := get_time_put_time_addDaysTm (get_time p) (-14 + -2 + 3) (by omega) (by omega)
  rw [r1, r2, r3]
  refine ⟨?_, ?_, ?_⟩
  · rw [calculateDaysDifference_eq _ _ (by rw [g1, addDaysTm_days]; omega), g1,
      addDaysTm_days]
    omega
  · rw [calculateDaysDifference_eq _ _ (by rw [g1, g2, addDaysTm_days, addDaysTm_days]; omega),
      g1, g2, addDaysTm_days, addDaysTm_days]
    omega
  · rw [calculateDaysDifference_eq _ _ (by rw [g1, g3, addDaysTm_days, addDaysTm_days]; omega),
      g1, g3, addDaysTm_days, addDaysTm_days]
    omega

/-- What `get_time` reads from the text of a predicted start: a day count from 17-01-0000
on.  The start is the date read from some text moved forward by 28 to 60 days, so its year
is at most 10000. -/
theorem get_time_predicted_days (e : String) (k : Int) (h0 : 28 ≤ k) (h1 : k ≤ 60) :
    -719512 ≤ (get_time (put_time (addDaysTm (get_time e) k))).days := by
  have hr := get_time_days_range e
  have hv := addDaysTm_valid (get_time e) k
  have hdays := addDaysTm_days (get_time e) k
  have hyear := addDaysTm_year (get_time e) k
  by_cases hy : (addDaysTm (get_time e) k).tm_year + 1900 ≤ 9999
  · have hlo := (civilFromDays_year_range ((get_time e).days + k) (by omega)
      (days_le_of_year_le _ (by rw [← hyear]; exact hy))).1
    rw [get_time_put_time _ ⟨hv.2.2.1, hv.mday_le⟩ ⟨hv.1, hv.2.1⟩
      ⟨by rw [hyear]; exact hlo, hy⟩, hdays]
    omega
  · have hup := civilFromDays_year_mono ((get_time e).days + k) 2932956 (by omega)
    have e1 : (civilFromDays 2932956).1 = 10000 := by decide
    have hy2 : (addDaysTm (get_time e) k).tm_year + 1900 = 10000 := by omega
    rw [get_time_put_time_year_10000 _ ⟨hv.2.2.1, hv.mday_le⟩ ⟨hv.1, hv.2.1⟩ hy2,
      Tm.days_eq_of_mon ⟨_, _, 1000 - 1900⟩ hv.1 hv.2.1]
    have hmon := monYday_nonneg (isLeap 1000) (addDaysTm (get_time e) k).tm_mon hv.1 hv.2.1
    have hvd := hv.2.2.1
    have hl : leapsThruEndOf (1000 - 1) - leapsThruEndOf 1969 = -235 := by decide
    generalize addDaysTm (get_time e) k = T at hmon hvd ⊢
    obtain ⟨d, m, y⟩ := T
    simp only at hmon hvd
    simp only [daysFromCivil, sub_add_cancel]
    rw [hl]
    omega

/-- The three dates printed by `calculateOvulationAndFertility`: the `std::tm` read from the
text, moved by -14, by -14 - 2 and by -14 - 2 + 3 days. -/
theorem calculateOvulationAndFertility_eq (p : String) :
    calculateOvulationAndFertility p
      = (put_time (addDaysTm (get_time p) (-14)),
         put_time (addDaysTm (get_time p) (-14 + -2)),
         put_time (addDaysTm (get_time p) (-14 + -2 + 3))) := by
  have e3 : (mktime { addDaysTm (addDaysTm (get_time p) (-14)) (-2) with
      tm_mday := (addDaysTm (addDaysTm (get_time p) (-14)) (-2)).tm_mday + 3 }).1
        = addDaysTm (addDaysTm (addDaysTm (get_time p) (-14)) (-2)) 3 := rfl
  simp only [calculateOvulationAndFertility, mktime_sub_mday]
  rw [e3, addDaysTm_addDaysTm, addDaysTm_addDaysTm, add_assoc]

/-- For valid dates at most 106751 days apart the day difference of the source is the exact
difference of their day counts. -/
theorem calculateDaysDifference_dates (a b : Date) (ha : a.Valid) (hb : b.Valid)
    (h : -106751 ≤ b.toTm.days - a.toTm.days ∧ b.toTm.days - a.toTm.days ≤ 106751) :
    calculateDaysDifference a.text b.text = b.toTm.days - a.toTm.days := by
  rw [calculateDaysDifference_eq _ _ (by rw [ha.get_time_text, hb.get_time_text]; exact h),
    ha.get_time_text, hb.get_time_text]

/-- Where the day difference does not overflow, `addCycle` on a non-negative average with
valid dates in order stores `floor((A + L) / 2)` with `L ≥ 0`. -/
theorem addCycle_average_floor_near (s : PeriodTracker) (a b : Date) (symptoms : List String)
    (hA : 0 ≤ s.averageCycleLength) (ha : a.Valid) (hb : b.Valid) (hab : a.le b)
    (hnear : b.toTm.days - a.toTm.days ≤ 106751) :
    0 ≤ calculateDaysDifference a.text b.text ∧
    (s.addCycle a.text b.text symptoms).1.averageCycleLength
      = ⌊((s.averageCycleLength + calculateDaysDifference a.text b.text : Int) : ℚ) / 2⌋ := by
  have hd := Date.days_le_of_le a b ha hb hab
  have hL : 0 ≤ calculateDaysDifference a.text b.text := by
    rw [calculateDaysDifference_dates a b ha hb ⟨by omega, hnear⟩]
    omega
  exact ⟨hL, int_tdiv_two_eq_floor _ (by omega)⟩

/-! ## The claims -/

/-- C1, at the failing input: on a fresh tracker (`A = 28`) the call
`addCycle(01-01-1700, 01-01-2024)` has valid dates in order, 118338 days apart.  The day
difference of the source overflows its 64-bit nanosecond count and comes out as -95165; the
stored average is -47568, where `floor((28 + 118338) / 2)` is 59183 (and the floor for the
length as computed, `floor((28 - 95165) / 2)`, is -47569). -/
theorem addCycle_average_overflows_far_dates :
    (Date.mk 1 1 1700).Valid ∧ (Date.mk 1 1 2024).Valid ∧
    (Date.mk 1 1 1700).le (Date.mk 1 1 2024) ∧
    (Date.mk 1 1 1700).text = "01-01-1700" ∧ (Date.mk 1 1 2024).text = "01-01-2024" ∧
    (get_time "01-01-2024").days - (get_time "01-01-1700").days = 118338 ∧
    calculateDaysDifference "01-01-1700" "01-01-2024" = -95165 ∧
    init.averageCycleLength = 28 ∧
    (init.addCycle "01-01-1700" "01-01-2024" []).1.averageCycleLength = -47568 ∧
    ⌊(((28 : Int) + 118338 : Int) : ℚ) / 2⌋ = 59183 ∧
    ⌊(((28 : Int) + -95165 : Int) : ℚ) / 2⌋ = -47569 := by
  refine ⟨by decide, by decide, by decide, by decide, by decide, by decide, by decide, rfl,
    by decide, ?_, ?_⟩
  · rw [int_floor_half]
    decide
  · rw [int_floor_half]
    decide

/-- C2 fails as stated.  One day after 31-12-9999 is written `01-01-10000`, of which
`get_time` reads the year 1000, so the day difference returned is -84621 and not 1.  And
106752 days after 01-01-2024 is 12-04-2316, for which the day difference overflows and
comes out as -106751. -/
theorem roundtrip_fails_past_year_9999 :
    (Date.mk 31 12 9999).Valid ∧ (Date.mk 31 12 9999).text = "31-12-9999" ∧
    addDays "31-12-9999" 1 = "01-01-10000" ∧
    get_time "01-01-10000" = ⟨1, 0, 1000 - 1900⟩ ∧
    calculateDaysDifference "31-12-9999" (addDays "31-12-9999" 1) = -84621 ∧
    (Date.mk 1 1 2024).Valid ∧ (Date.mk 1 1 2024).text = "01-01-2024" ∧
    addDays "01-01-2024" 106752 = "12-04-2316" ∧
    calculateDaysDifference "01-01-2024" (addDays "01-01-2024" 106752) = -106751 ∧
    ¬ (∀ (d : Date) (n : Int), d.Valid →
        calculateDaysDifference d.text (addDays d.text n) = n) := by
  refine ⟨by decide, by decide, by decide, by decide, by decide, by decide, by decide,
    by decide, by decide, ?_⟩
  intro h
  have h1 := h ⟨31, 12, 9999⟩ 1 (by decide)
  have h2 : calculateDaysDifference (Date.mk 31 12 9999).text
      (addDays (Date.mk 31 12 9999).text 1) = -84621 := by decide
  rw [h2] at h1
  exact absurd h1 (by decide)

/-- C2, amended: for a date text `date` (a valid date in particular) and an integer `n` of at
most 106751 days either way such that the year of the date `n` days away lies in 0..9999
(so that it is written with at most four digits and read back whole),
`calculateDaysDifference` from `date` to `addDays date n` is exactly `n`. -/
theorem calculateDaysDifference_addDays (date : String) (n : Int)
    (hn : -106751 ≤ n ∧ n ≤ 106751)
    (hy : 0 ≤ (addDaysTm (get_time date) n).tm_year + 1900 ∧
      (addDaysTm (get_time date) n).tm_year + 1900 ≤ 9999) :
    calculateDaysDifference date (addDays date n) = n := by
  have hv := addDaysTm_valid (get_time date) n
  have hg : get_time (addDays date n) = addDaysTm (get_time date) n := by
    rw [addDays, get_time_put_time _ ⟨hv.2.2.1, hv.mday_le⟩ ⟨hv.1, hv.2.1⟩ hy]
  rw [calculateDaysDifference_eq _ _ (by rw [hg, addDaysTm_days]; omega), hg, addDaysTm_days]
  omega

/-- C2 amended, at the valid dates 28-02-2024 with `n = 2`, `n = -59` and `n = 0`, and
01-01-2024 with `n = 106751`. -/
theorem calculateDaysDifference_addDays_witness :
    (Date.mk 28 2 2024).Valid ∧ (Date.mk 28 2 2024).text = "28-02-2024" ∧
    addDays "28-02-2024" (-59) = "31-12-2023" ∧
    (0 ≤ (addDaysTm (get_time "28-02-2024") 2).tm_year + 1900 ∧
      (addDaysTm (get_time "28-02-2024") 2).tm_year + 1900 ≤ 9999) ∧
    calculateDaysDifference "28-02-2024" (addDays "28-02-2024" 2) = 2 ∧
    calculateDaysDifference "28-02-2024" (addDays "28-02-2024" (-59)) = -59 ∧
    calculateDaysDifference "28-02-2024" (addDays "28-02-2024" 0) = 0 ∧
    addDays "01-01-2024" 106751 = "11-04-2316" ∧
    calculateDaysDifference "01-01-2024" (addDays "01-01-2024" 106751) = 106751 :=
  ⟨by decide, by decide, by decide, by decide,
    calculateDaysDifference_addDays "28-02-2024" 2 (by decide) (by decide),
    calculateDaysDifference_addDays "28-02-2024" (-59) (by decide) (by decide),
    calculateDaysDifference_addDays "28-02-2024" 0 (by decide) (by decide),
    by decide,
    calculateDaysDifference_addDays "01-01-2024" 106751 (by decide) (by decide)⟩

/-- C3: for every date text and every integer `n`, the date that `addDays` writes is a real
calendar day (month 0..11 in `std::tm` terms, day within the length of that month, leap years
respected); `addDays(28-02-2024, 2) = 01-03-2024`, `addDays(28-02-2023, 2) = 02-03-2023`, and
day 32 of January normalises to 1 February in every year. -/
theorem addDays_is_calendar_date (date : String) (n : Int) :
    (addDaysTm (get_time date) n).Valid ∧
    addDays date n = put_time (addDaysTm (get_time date) n) ∧
    addDays "28-02-2024" 2 = "01-03-2024" ∧
    addDays "28-02-2023" 2 = "02-03-2023" ∧
    (∀ y : Int, (mktime ⟨32, 0, y⟩).1 = ⟨1, 1, y⟩) ∧
    put_time (mktime ⟨32, 0, 2024 - 1900⟩).1 = "01-02-2024" := by
  refine ⟨addDaysTm_valid _ _, rfl, by decide, by decide, ?_, by decide⟩
  intro y
  have hv : (Tm.mk 1 1 y).Valid := by
    simp only [Tm.Valid, daysInMonth]
    norm_num
    split_ifs <;> decide
  have hd : (Tm.mk 32 0 y).days = (Tm.mk 1 1 y).days := by
    simp [Tm.days, daysFromCivil, monYday]
  have h1 := mktime_of_valid _ hv
  simp only [mktime] at h1 ⊢
  rw [hd]
  exact h1

/-- C4: `checkIrregularCycles` reports exactly the pairs `(c[i-1].startDate, c[i].startDate)`,
`i = 1 .. n-1` in increasing order, whose gap, as `calculateDaysDifference` gives it, differs
from the current average by more than 5 days, and nothing with fewer than two cycles.  The
threshold is strict: with average 28 a gap of 33 (or 23) is not flagged, a gap of 35 (or 22)
is.  In the state reached by `addCycle(01-01-1400, 29-01-1400)` and
`addCycle(19-08-1984, 16-09-1984)` the gap is computed as 28 and nothing is reported. -/
theorem checkIrregularCycles_reports (s : PeriodTracker) :
    (checkIrregularCycles s).2 =
      ((List.range' 1 (s.cycles.length - 1)).filter (fun i => decide
        (5 < (calculateDaysDifference (s.startAt (i - 1)) (s.startAt i)
          - s.averageCycleLength).natAbs))).map
        (fun i => (s.startAt (i - 1), s.startAt i)) ∧
    (s.cycles.length < 2 → (checkIrregularCycles s).2 = []) ∧
    (calculateDaysDifference "01-01-2024" "03-02-2024" = 33 ∧
      (checkIrregularCycles ⟨[⟨"01-01-2024", "05-01-2024", []⟩,
        ⟨"03-02-2024", "07-02-2024", []⟩], 28⟩).2 = []) ∧
    (calculateDaysDifference "01-01-2024" "05-02-2024" = 35 ∧
      (checkIrregularCycles ⟨[⟨"01-01-2024", "05-01-2024", []⟩,
        ⟨"05-02-2024", "07-02-2024", []⟩], 28⟩).2 = [("01-01-2024", "05-02-2024")]) ∧
    (calculateDaysDifference "01-01-2024" "24-01-2024" = 23 ∧
      (checkIrregularCycles ⟨[⟨"01-01-2024", "05-01-2024", []⟩,
        ⟨"24-01-2024", "27-01-2024", []⟩], 28⟩).2 = []) ∧
    (calculateDaysDifference "01-01-2024" "23-01-2024" = 22 ∧
      (checkIrregularCycles ⟨[⟨"01-01-2024", "05-01-2024", []⟩,
        ⟨"23-01-2024", "27-01-2024", []⟩], 28⟩).2 = [("01-01-2024", "23-01-2024")]) ∧
    (init.addCycles [("01-01-1400", "29-01-1400", []), ("19-08-1984", "16-09-1984", [])]
        = ⟨[⟨"01-01-1400", "29-01-1400", []⟩, ⟨"19-08-1984", "16-09-1984", []⟩], 28⟩ ∧
      calculateDaysDifference "01-01-1400" "19-08-1984" = 28 ∧
      (checkIrregularCycles (init.addCycles
        [("01-01-1400", "29-01-1400", []), ("19-08-1984", "16-09-1984", [])])).2 = []) := by
  refine ⟨?_, ?_, ⟨by decide, by decide⟩, ⟨by decide, by decide⟩, ⟨by decide, by decide⟩,
    ⟨by decide, by decide⟩, ⟨by decide, by decide, by decide⟩⟩
  · unfold checkIrregularCycles
    split_ifs with h
    · have h0 : s.cycles.length - 1 = 0 := by omega
      rw [h0]
      rfl
    · exact checkIrregularLoop_eq s _ 1 (le_refl 1) (by omega)
  · intro h
    unfold checkIrregularCycles
    rw [if_pos h]

/-- C5: for a valid anchor date `a`, `calculateOvulationAndFertility` prints
`ovulationDate = addDays(a, -14)`, `fertileStart = addDays(ovulationDate, -2)` and
`fertileEnd = addDays(fertileStart, 3)`, which is also `addDays(ovulationDate, 1)`; the day
differences are 14, 2 and 1; for 15-03-2024 the result is 01-03-2024, 28-02-2024,
02-03-2024. -/
theorem calculateOvulationAndFertility_spec (a : Date) (ha : a.Valid) :
    (calculateOvulationAndFertility a.text).1 = addDays a.text (-14) ∧
    (calculateOvulationAndFertility a.text).2.1
      = addDays (calculateOvulationAndFertility a.text).1 (-2) ∧
    (calculateOvulationAndFertility a.text).2.2
      = addDays (calculateOvulationAndFertility a.text).2.1 3 ∧
    (calculateOvulationAndFertility a.text).2.2
      = addDays (calculateOvulationAndFertility a.text).1 1 ∧
    calculateDaysDifference (calculateOvulationAndFertility a.text).1 a.text = 14 ∧
    calculateDaysDifference (calculateOvulationAndFertility a.text).2.1
      (calculateOvulationAndFertility a.text).1 = 2 ∧
    calculateDaysDifference (calculateOvulationAndFertility a.text).1
      (calculateOvulationAndFertility a.text).2.2 = 1 ∧
    calculateOvulationAndFertility "15-03-2024" = ("01-03-2024", "28-02-2024", "02-03-2024") := by
  have hr := ha.days_range
  have ht := ha.get_time_text
  have hdiff := calculateOvulationAndFertility_differences a.text (by rw [ht]; omega)
  have g1 := get_time_put_time_addDaysTm (get_time a.text) (-14)
    (by rw [ht]; omega) (by rw [ht]; omega)
  have g2 := get_time_put_time_addDaysTm (get_time a.text) (-14 + -2)
    (by rw [ht]; omega) (by rw [ht]; omega)
  refine ⟨?_, ?_, ?_, ?_, hdiff.1, hdiff.2.1, hdiff.2.2, by decide⟩
  · rw [calculateOvulationAndFertility_eq]
    rfl
  · rw [calculateOvulationAndFertility_eq]
    simp only [addDays]
    rw [g1, addDaysTm_addDaysTm]
  · rw [calculateOvulationAndFertility_eq]
    simp only [addDays]
    rw [g2, addDaysTm_addDaysTm]
  · rw [calculateOvulationAndFertility_eq]
    simp only [addDays]
    rw [g1, addDaysTm_addDaysTm]
    norm_num

/-- C5 at the anchors 15-03-2024 and 01-01-2024 (the window then lies in the year before). -/
theorem calculateOvulationAndFertility_spec_witness :
    (Date.mk 15 3 2024).Valid ∧ (Date.mk 15 3 2024).text = "15-03-2024" ∧
    (calculateOvulationAndFertility "15-03-2024").2.2
      = addDays (calculateOvulationAndFertility "15-03-2024").1 1 ∧
    (Date.mk 1 1 2024).Valid ∧ (Date.mk 1 1 2024).text = "01-01-2024" ∧
    calculateOvulationAndFertility "01-01-2024" = ("18-12-2023", "16-12-2023", "19-12-2023") ∧
    (calculateOvulationAndFertility "01-01-2024").2.1
      = addDays (calculateOvulationAndFertility "01-01-2024").1 (-2) :=
  ⟨by decide, by decide,
    (calculateOvulationAndFertility_spec ⟨15, 3, 2024⟩ (by decide)).2.2.2.1,
    by decide, by decide, by decide,
    (calculateOvulationAndFertility_spec ⟨1, 1, 2024⟩ (by decide)).2.1⟩

/-- C6: `predictFuturePeriods` gives the no-data result exactly when the tracker holds no
cycle; with at least one cycle it gives exactly two predictions.  It is a total function. -/
theorem predictFuturePeriods_result (gen : UniformDraws 28 30) (s : PeriodTracker) :
    ((predictFuturePeriods gen s).2 = none ↔ s.cycles = []) ∧
    (s.cycles ≠ [] → ∃ p1 p2, (predictFuturePeriods gen s).2 = some [p1, p2]) ∧
    (∀ l, (predictFuturePeriods gen s).2 = some l → l.length = 2) := by
  unfold predictFuturePeriods
  cases hl : s.cycles.getLast? with
  | none =>
    have he : s.cycles = [] := List.getLast?_eq_none_iff.1 hl
    simp [he]
  | some last =>
    have hne : s.cycles ≠ [] := by
      intro he
      rw [he] at hl
      simp at hl
    simp [hne, predictLoop]

/-- C7 fails as stated: with the last end date 31-12-9999 and both lengths drawn as 28, the
first predicted start is written `28-01-10000`; read back it is 28-01-1000, so the day
difference returned from the end date is -84594 (not 28..30), the ovulation date printed for
it is 14-01-1000, and `addDays` of that text by the second length gives `25-02-1000`, not the
second predicted start `25-02-10000`. -/
theorem predictFuturePeriods_chain_fails_past_year_9999 :
    (predictFuturePeriods constantDraws ⟨[⟨"01-12-9999", "31-12-9999", []⟩], 28⟩).2
      = some [⟨"28-01-10000", "14-01-1000", "12-01-1000", "15-01-1000"⟩,
          ⟨"25-02-10000", "11-02-1000", "09-02-1000", "12-02-1000"⟩] ∧
    constantDraws.draw 0 = 28 ∧ constantDraws.draw 1 = 28 ∧
    get_time "28-01-10000" = ⟨28, 0, 1000 - 1900⟩ ∧
    calculateDaysDifference "31-12-9999" "28-01-10000" = -84594 ∧
    ¬ (28 ≤ calculateDaysDifference "31-12-9999" "28-01-10000") ∧
    addDays "28-01-10000" 28 = "25-02-1000" ∧
    addDays "28-01-10000" 28 ≠ "25-02-10000" := by
  refine ⟨by decide, by decide, by decide, by decide, by decide, by decide, by decide,
    by decide⟩

/-- C7, amended: for a tracker with at least one cycle whose second predicted start falls in
a year up to 9999, the predicted starts chain from the end date `e` of the last stored cycle:
`p1 = addDays(e, L1)`, `p2 = addDays(p1, L2)` with `L1`, `L2` in 28..30, and the day
differences from `e` to `p1` and from `p1` to `p2` are `L1` and `L2`. -/
theorem predictFuturePeriods_chain (gen : UniformDraws 28 30) (s : PeriodTracker)
    (last : PeriodTracker.Cycle) (hlast : s.cycles.getLast? = some last)
    (hy : (addDaysTm (addDaysTm (get_time last.endDate) (gen.draw 0)) (gen.draw 1)).tm_year
      + 1900 ≤ 9999) :
    ∃ p1 p2 : Prediction, (predictFuturePeriods gen s).2 = some [p1, p2] ∧
      p1.predictedPeriodStart = addDays last.endDate (gen.draw 0) ∧
      p2.predictedPeriodStart = addDays p1.predictedPeriodStart (gen.draw 1) ∧
      (28 ≤ gen.draw 0 ∧ gen.draw 0 ≤ 30) ∧ (28 ≤ gen.draw 1 ∧ gen.draw 1 ≤ 30) ∧
      calculateDaysDifference last.endDate p1.predictedPeriodStart = gen.draw 0 ∧
      calculateDaysDifference p1.predictedPeriodStart p2.predictedPeriodStart = gen.draw 1 := by
  have r0 := gen.inRange 0
  have r1 := gen.inRange 1
  have hd := get_time_days_range last.endDate
  rw [addDaysTm_addDaysTm, addDaysTm_year] at hy
  have hhi := days_le_of_year_le _ hy
  have g1 := get_time_put_time_addDaysTm (get_time last.endDate) (gen.draw 0)
    (by omega) (by omega)
  have g2 := get_time_put_time_addDaysTm (get_time last.endDate) (gen.draw 0 + gen.draw 1)
    (by omega) (by omega)
  refine ⟨_, _, predictFuturePeriods_eq gen s last hlast, ?_, ?_, r0, r1, ?_, ?_⟩
  · simp only [addDays]
  · simp only [addDays, g1, addDaysTm_addDaysTm]
  · simp only
    rw [calculateDaysDifference_eq _ _ (by rw [g1, addDaysTm_days]; omega), g1, addDaysTm_days]
    omega
  · simp only
    rw [calculateDaysDifference_eq _ _
        (by rw [g1, g2, addDaysTm_days, addDaysTm_days]; omega),
      g1, g2, addDaysTm_days, addDaysTm_days]
    omega

/-- C7 amended, at a tracker whose last stored cycle (of two) ends on 05-01-2024, with both
lengths drawn as 28. -/
theorem predictFuturePeriods_chain_witness :
    (addDaysTm (addDaysTm (get_time "05-01-2024") (constantDraws.draw 0))
      (constantDraws.draw 1)).tm_year + 1900 ≤ 9999 ∧
    (predictFuturePeriods constantDraws ⟨[⟨"01-03-2024", "06-03-2024", []⟩,
      ⟨"01-01-2024", "05-01-2024", []⟩], 28⟩).2
      = some [⟨"02-02-2024", "19-01-2024", "17-01-2024", "20-01-2024"⟩,
          ⟨"01-03-2024", "16-02-2024", "14-02-2024", "17-02-2024"⟩] ∧
    ∃ p1 p2 : Prediction,
      (predictFuturePeriods constantDraws ⟨[⟨"01-03-2024", "06-03-2024", []⟩,
        ⟨"01-01-2024", "05-01-2024", []⟩], 28⟩).2 = some [p1, p2] ∧
      p1.predictedPeriodStart = addDays "05-01-2024" (constantDraws.draw 0) ∧
      p2.predictedPeriodStart = addDays p1.predictedPeriodStart (constantDraws.draw 1) ∧
      (28 ≤ constantDraws.draw 0 ∧ constantDraws.draw 0 ≤ 30) ∧
      (28 ≤ constantDraws.draw 1 ∧ constantDraws.draw 1 ≤ 30) ∧
      calculateDaysDifference "05-01-2024" p1.predictedPeriodStart = constantDraws.draw 0 ∧
      calculateDaysDifference p1.predictedPeriodStart p2.predictedPeriodStart
        = constantDraws.draw 1 :=
  ⟨by decide, by decide,
    predictFuturePeriods_chain constantDraws
      ⟨[⟨"01-03-2024", "06-03-2024", []⟩, ⟨"01-01-2024", "05-01-2024", []⟩], 28⟩
      ⟨"01-01-2024", "05-01-2024", []⟩ (by decide) (by decide)⟩

/-- C8: the lines printed by `addCycle` are, for a non-empty symptom list, the heading and
then the fixed tip of every tag that is exactly `cramps`, `headache`, `moodswings` or
`nausea`, one per occurrence and in input order; any other tag (also one differing in case)
adds nothing; an empty list prints nothing.  `["cramps", "unknown"]` gives one tip. -/
theorem addCycle_advisories (s : PeriodTracker) (startDate endDate : String)
    (symptoms : List String) :
    (s.addCycle startDate endDate symptoms).2
      = (if symptoms = [] then []
         else "----- Health Reminders -----" :: symptoms.filterMap advisoryFor) ∧
    healthReminders symptoms = "----- Health Reminders -----" :: symptoms.filterMap advisoryFor ∧
    (∀ tag, (advisoryFor tag).isSome = true ↔
      (tag = "cramps" ∨ tag = "headache" ∨ tag = "moodswings" ∨ tag = "nausea")) ∧
    (s.addCycle startDate endDate ["cramps", "unknown"]).2
      = ["----- Health Reminders -----",
         "Tip: Try heat therapy or light exercise to relieve cramps."] ∧
    advisoryFor "unknown" = none ∧ advisoryFor "Cramps" = none ∧
    (s.addCycle startDate endDate ["nausea", "x", "cramps", "nausea"]).2
      = ["----- Health Reminders -----", "Tip: Ginger tea may help soothe nausea.",
         "Tip: Try heat therapy or light exercise to relieve cramps.",
         "Tip: Ginger tea may help soothe nausea."] := by
  have hgen : ∀ l : List String, (s.addCycle startDate endDate l).2
      = (if l = [] then [] else "----- Health Reminders -----" :: l.filterMap advisoryFor) := by
    intro l
    simp only [addCycle, healthReminders, healthRemindersLoop_eq, List.isEmpty_iff]
  refine ⟨hgen _, ?_, ?_, ?_, by decide, by decide, ?_⟩
  · simp only [healthReminders, healthRemindersLoop_eq]
  · intro tag
    unfold advisoryFor
    split_ifs <;> simp [*]
  · rw [hgen]
    decide
  · rw [hgen]
    decide

/-- C9: `addCycle` appends exactly one cycle, with the given dates and the symptoms in their
order; the list grows by one and every cycle stored before keeps its position and content. -/
theorem addCycle_appends (s : PeriodTracker) (startDate endDate : String)
    (symptoms : List String) :
    (s.addCycle startDate endDate symptoms).1.cycles
      = s.cycles ++ [⟨startDate, endDate, symptoms⟩] ∧
    (s.addCycle startDate endDate symptoms).1.cycles.length = s.cycles.length + 1 ∧
    (∀ i, i < s.cycles.length →
      (s.addCycle startDate endDate symptoms).1.cycles[i]? = s.cycles[i]?) ∧
    (s.addCycle startDate endDate symptoms).1.cycles[s.cycles.length]?
      = some ⟨startDate, endDate, symptoms⟩ := by
  refine ⟨rfl, ?_, ?_, ?_⟩
  · simp [addCycle]
  · intro i hi
    simp only [addCycle]
    exact List.getElem?_append_left hi
  · simp [addCycle]

/-- C10: `predictFuturePeriods` and `checkIrregularCycles` leave the cycle list and the
average as they were, and a second `checkIrregularCycles` reports the same pairs. -/
theorem queries_read_only (gen : UniformDraws 28 30) (s : PeriodTracker) :
    (predictFuturePeriods gen s).1 = s ∧ (checkIrregularCycles s).1 = s ∧
    ((predictFuturePeriods gen s).1.cycles = s.cycles ∧
      (predictFuturePeriods gen s).1.averageCycleLength = s.averageCycleLength) ∧
    ((checkIrregularCycles s).1.cycles = s.cycles ∧
      (checkIrregularCycles s).1.averageCycleLength = s.averageCycleLength) ∧
    (checkIrregularCycles (checkIrregularCycles s).1).2 = (checkIrregularCycles s).2 ∧
    (checkIrregularCycles (predictFuturePeriods gen s).1).2 = (checkIrregularCycles s).2 := by
  have h1 : (predictFuturePeriods gen s).1 = s := by
    unfold predictFuturePeriods
    split <;> rfl
  have h2 : (checkIrregularCycles s).1 = s := by
    unfold checkIrregularCycles
    split_ifs <;> rfl
  refine ⟨h1, h2, ⟨by rw [h1], by rw [h1]⟩, ⟨by rw [h2], by rw [h2]⟩, by rw [h2], by rw [h1]⟩

/-- C11, at the failing input: 01-01-1700 and 01-01-2024 are valid dates in calendar order,
118338 days apart, and the day difference returned is -95165.  The difference of the two
time points, 118338 days in nanoseconds, does not fit 64 bits and wraps to a negative
count. -/
theorem calculateDaysDifference_negative_for_ordered_far_dates :
    (Date.mk 1 1 1700).Valid ∧ (Date.mk 1 1 2024).Valid ∧
    (Date.mk 1 1 1700).le (Date.mk 1 1 2024) ∧
    (Date.mk 1 1 1700).text = "01-01-1700" ∧ (Date.mk 1 1 2024).text = "01-01-2024" ∧
    (get_time "01-01-2024").days - (get_time "01-01-1700").days = 118338 ∧
    wrapInt64 (118338 * 86400000000000) = -8222340873709551616 ∧
    calculateDaysDifference "01-01-1700" "01-01-2024" = -95165 ∧
    ¬ (0 ≤ calculateDaysDifference "01-01-1700" "01-01-2024") := by
  refine ⟨by decide, by decide, by decide, by decide, by decide, by decide, by decide,
    by decide, by decide⟩

/-- C12: for every year `Y` with `Y + 1` still a four-digit year, the day difference from
01-01-`Y` to 01-01-`(Y+1)` is 366 when `Y` is divisible by 4 and not by 100, or divisible by
400, and 365 otherwise. -/
theorem calculateDaysDifference_year_length (Y : Nat) (hY : Y ≤ 9998) :
    calculateDaysDifference (Date.mk 1 1 Y).text (Date.mk 1 1 (Y + 1)).text
      = if (Y % 4 = 0 ∧ Y % 100 ≠ 0) ∨ Y % 400 = 0 then 366 else 365 := by
  have h := daysFromCivil_next_year (Y : Int)
  have hl := isLeap_iff (Y : Int)
  have e1 := get_time_jan1_days Y (by omega)
  have e2 := get_time_jan1_days (Y + 1) (by omega)
  push_cast at e2
  have hbound : (0 : Int) ≤ (if isLeap (Y : Int) = true then 1 else 0) ∧
      (if isLeap (Y : Int) = true then (1 : Int) else 0) ≤ 1 := by
    split_ifs <;> decide
  rw [calculateDaysDifference_eq _ _ (by rw [e1, e2]; omega), e1, e2, h]
  by_cases hleap : isLeap (Y : Int) = true
  · have h2 := hl.1 hleap
    rw [if_pos hleap, if_pos (by omega)]
    rfl
  · have h2 := mt hl.2 hleap
    rw [if_neg hleap, if_neg (by omega)]
    rfl

/-- C12 at the years 2024, 2023, 1900 and 2000. -/
theorem calculateDaysDifference_year_length_witness :
    calculateDaysDifference "01-01-2024" "01-01-2025" = 366 ∧
    calculateDaysDifference "01-01-2023" "01-01-2024" = 365 ∧
    calculateDaysDifference "01-01-1900" "01-01-1901" = 365 ∧
    calculateDaysDifference "01-01-2000" "01-01-2001" = 366 :=
  ⟨calculateDaysDifference_year_length 2024 (by decide),
    calculateDaysDifference_year_length 2023 (by decide),
    calculateDaysDifference_year_length 1900 (by decide),
    calculateDaysDifference_year_length 2000 (by decide)⟩

/-- C13 fails as stated: on a fresh tracker (`A = 28`) the cycle from 01-02-2024 back to
01-01-2024 has length `L = -31`; the stored average is -1, while `floor((28 - 31) / 2)` is
-2.  The `int` division of the source rounds toward zero. -/
theorem addCycle_average_not_floor_when_negative :
    calculateDaysDifference "01-02-2024" "01-01-2024" = -31 ∧
    (init.addCycle "01-02-2024" "01-01-2024" []).1.averageCycleLength = -1 ∧
    ⌊(((28 : Int) + -31 : Int) : ℚ) / 2⌋ = -2 ∧
    (init.addCycle "01-02-2024" "01-01-2024" []).1.averageCycleLength
      ≠ ⌊((init.averageCycleLength
          + calculateDaysDifference "01-02-2024" "01-01-2024" : Int) : ℚ) / 2⌋ := by
  have e1 : calculateDaysDifference "01-02-2024" "01-01-2024" = -31 := by decide
  have e2 : (init.addCycle "01-02-2024" "01-01-2024" []).1.averageCycleLength = -1 := by
    decide
  have e3 : ⌊(((28 : Int) + -31 : Int) : ℚ) / 2⌋ = -2 := by
    rw [int_floor_half]
    decide
  have e4 : init.averageCycleLength = 28 := rfl
  refine ⟨e1, e2, e3, ?_⟩
  rw [e2, e1, e4, e3]
  decide

/-- C13, amended: for every current average `A` and every pair of date texts, in either
order, such that `A` and the sum `A + L` are `int` values, the new average is `(A + L) / 2`
rounded toward zero, again an `int`: `floor((A + L) / 2)` when `A + L ≥ 0` and
`ceil((A + L) / 2)` when `A + L < 0`.  It equals the floor exactly when `A + L` is
non-negative or even, and is one more otherwise.  A start date up to 106751 days after the
end date gives a negative `L`. -/
theorem addCycle_average_rounds_toward_zero (s : PeriodTracker) (startDate endDate : String)
    (symptoms : List String)
    (h : isInt32 s.averageCycleLength ∧
      isInt32 (s.averageCycleLength + calculateDaysDifference startDate endDate)) :
    isInt32 (s.addCycle startDate endDate symptoms).1.averageCycleLength ∧
    (s.addCycle startDate endDate symptoms).1.averageCycleLength
      = (if 0 ≤ s.averageCycleLength + calculateDaysDifference startDate endDate
         then ⌊((s.averageCycleLength + calculateDaysDifference startDate endDate : Int) : ℚ) / 2⌋
         else ⌈((s.averageCycleLength + calculateDaysDifference startDate endDate : Int) : ℚ) / 2⌉) ∧
    ((0 ≤ s.averageCycleLength + calculateDaysDifference startDate endDate ∨
        (s.averageCycleLength + calculateDaysDifference startDate endDate) % 2 = 0) →
      (s.addCycle startDate endDate symptoms).1.averageCycleLength
        = ⌊((s.averageCycleLength + calculateDaysDifference startDate endDate : Int) : ℚ) / 2⌋) ∧
    ((s.averageCycleLength + calculateDaysDifference startDate endDate < 0 ∧
        (s.averageCycleLength + calculateDaysDifference startDate endDate) % 2 = 1) →
      (s.addCycle startDate endDate symptoms).1.averageCycleLength
        = ⌊((s.averageCycleLength + calculateDaysDifference startDate endDate : Int) : ℚ) / 2⌋
          + 1) ∧
    (∀ a b : Date, a.Valid → b.Valid → a.le b → a ≠ b →
      b.toTm.days - a.toTm.days ≤ 106751 → calculateDaysDifference b.text a.text < 0) := by
  have hnew : (s.addCycle startDate endDate symptoms).1.averageCycleLength
      = Int.tdiv (s.averageCycleLength + calculateDaysDifference startDate endDate) 2 := rfl
  have hsum := h.2
  rw [hnew]
  generalize s.averageCycleLength + calculateDaysDifference startDate endDate = x at hsum
  have hfl := int_floor_half x
  unfold isInt32 at hsum ⊢
  refine ⟨?_, ?_, ?_, ?_, ?_⟩
  · rcases Int.lt_or_le x 0 with hx | hx
    · have h1 : Int.tdiv x 2 = -(Int.tdiv (-x) 2) := by rw [Int.neg_tdiv, neg_neg]
      rw [h1, Int.tdiv_eq_ediv (by omega) (by decide)]
      omega
    · rw [Int.tdiv_eq_ediv hx (by decide)]
      omega
  · split_ifs with h0
    · exact int_tdiv_two_eq_floor x h0
    · exact int_tdiv_two_eq_ceil x (by omega)
  · intro h0
    rw [hfl]
    rcases Int.lt_or_le x 0 with hx | hx
    · have h1 : Int.tdiv x 2 = -(Int.tdiv (-x) 2) := by rw [Int.neg_tdiv, neg_neg]
      rw [h1, Int.tdiv_eq_ediv (by omega) (by decide)]
      omega
    · rw [Int.tdiv_eq_ediv hx (by decide)]
  · intro h0
    rw [hfl]
    have h1 : Int.tdiv x 2 = -(Int.tdiv (-x) 2) := by rw [Int.neg_tdiv, neg_neg]
    rw [h1, Int.tdiv_eq_ediv (by omega) (by decide)]
    omega
  · intro a b ha hb hle hne hnear
    have hlt := Date.days_lt_of_ne a b ha hb hle hne
    rw [calculateDaysDifference_dates b a hb ha ⟨by omega, by omega⟩]
    omega

/-- C13 amended, on a fresh tracker: the cycle 01-02-2024 back to 01-01-2024 (`A + L = -3`)
stores the floor plus one, the cycle 01-01-2024 to 31-01-2024 (`A + L = 58`) the floor. -/
theorem addCycle_average_rounds_toward_zero_witness :
    (isInt32 init.averageCycleLength ∧
      isInt32 (init.averageCycleLength + calculateDaysDifference "01-02-2024" "01-01-2024")) ∧
    init.averageCycleLength + calculateDaysDifference "01-02-2024" "01-01-2024" = -3 ∧
    (init.addCycle "01-02-2024" "01-01-2024" []).1.averageCycleLength
      = ⌊((init.averageCycleLength
          + calculateDaysDifference "01-02-2024" "01-01-2024" : Int) : ℚ) / 2⌋ + 1 ∧
    (init.addCycle "01-02-2024" "01-01-2024" []).1.averageCycleLength = -1 ∧
    init.averageCycleLength + calculateDaysDifference "01-01-2024" "31-01-2024" = 58 ∧
    (init.addCycle "01-01-2024" "31-01-2024" []).1.averageCycleLength
      = ⌊((init.averageCycleLength
          + calculateDaysDifference "01-01-2024" "31-01-2024" : Int) : ℚ) / 2⌋ ∧
    (init.addCycle "01-01-2024" "31-01-2024" []).1.averageCycleLength = 29 :=
  ⟨by decide, by decide,
    (addCycle_average_rounds_toward_zero init "01-02-2024" "01-01-2024" [] (by decide)).2.2.2.1
      (by decide),
    by decide, by decide,
    (addCycle_average_rounds_toward_zero init "01-01-2024" "31-01-2024" [] (by decide)).2.2.1
      (by decide),
    by decide⟩

/-- C14 fails as stated: `addCycle` stores what it is given.  After the single call
`addCycle(05-01-2024, 01-01-2024)` on the empty tracker the stored cycle starts four days
after it ends. -/
theorem reachable_cycle_with_start_after_end :
    (init.addCycles [("05-01-2024", "01-01-2024", [])]).cycles
      = [⟨"05-01-2024", "01-01-2024", []⟩] ∧
    (Date.mk 5 1 2024).Valid ∧ (Date.mk 1 1 2024).Valid ∧
    (Date.mk 5 1 2024).text = "05-01-2024" ∧ (Date.mk 1 1 2024).text = "01-01-2024" ∧
    ¬ (Date.mk 5 1 2024).le (Date.mk 1 1 2024) ∧
    calculateDaysDifference "05-01-2024" "01-01-2024" = -4 := by
  refine ⟨by decide, by decide, by decide, by decide, by decide, by decide, by decide⟩

/-- C14, amended: in every tracker state reached from the empty tracker by `addCycle` calls
that are each given valid dates with `startDate` on or before `endDate`, the stored cycles
are exactly the cycles given, in call order, and every stored cycle holds the texts of two
valid dates with the start date on or before the end date. -/
theorem addCycles_keeps_start_before_end (calls : List (Date × Date × List String))
    (h : ∀ c ∈ calls, c.1.Valid ∧ c.2.1.Valid ∧ c.1.le c.2.1) :
    (init.addCycles (calls.map callOfDates)).cycles
      = calls.map (fun c => ⟨c.1.text, c.2.1.text, c.2.2⟩) ∧
    ∀ cyc ∈ (init.addCycles (calls.map callOfDates)).cycles,
      ∃ a b : Date, a.Valid ∧ b.Valid ∧ a.le b ∧
        cyc.startDate = a.text ∧ cyc.endDate = b.text := by
  have hc : (init.addCycles (calls.map callOfDates)).cycles
      = calls.map (fun c => ⟨c.1.text, c.2.1.text, c.2.2⟩) := by
    rw [addCycles_cycles]
    simp [init, callOfDates, Function.comp_def]
  refine ⟨hc, ?_⟩
  intro cyc hmem
  rw [hc] at hmem
  obtain ⟨c, hcm, rfl⟩ := List.mem_map.1 hmem
  obtain ⟨ha, hb, hle⟩ := h c hcm
  exact ⟨c.1, c.2.1, ha, hb, hle, rfl, rfl⟩

/-- C14 amended, at two calls with ordered valid dates. -/
theorem addCycles_keeps_start_before_end_witness :
    (init.addCycles [("01-01-2024", "05-01-2024", ["cramps"]),
        ("29-01-2024", "29-01-2024", [])]).cycles
      = [⟨"01-01-2024", "05-01-2024", ["cramps"]⟩, ⟨"29-01-2024", "29-01-2024", []⟩] ∧
    ∀ cyc ∈ (init.addCycles (List.map callOfDates
        [(⟨1, 1, 2024⟩, ⟨5, 1, 2024⟩, ["cramps"]), (⟨29, 1, 2024⟩, ⟨29, 1, 2024⟩, [])])).cycles,
      ∃ a b : Date, a.Valid ∧ b.Valid ∧ a.le b ∧
        cyc.startDate = a.text ∧ cyc.endDate = b.text :=
  ⟨by decide,
    (addCycles_keeps_start_before_end
      [(⟨1, 1, 2024⟩, ⟨5, 1, 2024⟩, ["cramps"]), (⟨29, 1, 2024⟩, ⟨29, 1, 2024⟩, [])]
      (by decide)).2⟩

/-- C15 fails as stated: with the last end date 31-12-9999 the first predicted start is the
`std::tm` 28-01-10000, printed `28-01-10000`; parsing that text back gives 28-01-1000, so the
year is lost.  The ovulation date printed for it is 14-01-1000, not the day 14 days before
the predicted start (14-01-10000) but 3287196 days before it. -/
theorem predicted_start_text_loses_year_10000 :
    addDaysTm (get_time "31-12-9999") (exampleDraws.draw 0) = ⟨28, 0, 10000 - 1900⟩ ∧
    put_time (addDaysTm (get_time "31-12-9999") (exampleDraws.draw 0)) = "28-01-10000" ∧
    get_time "28-01-10000" = ⟨28, 0, 1000 - 1900⟩ ∧
    get_time (put_time (addDaysTm (get_time "31-12-9999") (exampleDraws.draw 0)))
      ≠ addDaysTm (get_time "31-12-9999") (exampleDraws.draw 0) ∧
    (predictFuturePeriods exampleDraws ⟨[⟨"01-12-9999", "31-12-9999", []⟩], 28⟩).2
      = some [⟨"28-01-10000", "14-01-1000", "12-01-1000", "15-01-1000"⟩,
          ⟨"27-02-10000", "13-02-1000", "11-02-1000", "14-02-1000"⟩] ∧
    put_time (addDaysTm (addDaysTm (get_time "31-12-9999") (exampleDraws.draw 0)) (-14))
      = "14-01-10000" ∧
    (addDaysTm (get_time "31-12-9999") (exampleDraws.draw 0)).days
      - (get_time "14-01-1000").days = 3287196 := by
  refine ⟨by decide, by decide, by decide, by decide, by decide, by decide, by decide⟩

/-- C15, amended: in `predictFuturePeriods` the ovulation date and fertile window of each of
the two tuples are computed by `calculateOvulationAndFertility` from the text of the
predicted start that is emitted, and the day differences that `calculateDaysDifference`
gives on the printed texts are 14, 2 and 1 in every case.  Formatting the predicted start
and parsing it back loses nothing when the second predicted start falls in a year up to
9999. -/
theorem predictFuturePeriods_window_from_text (gen : UniformDraws 28 30) (s : PeriodTracker)
    (last : PeriodTracker.Cycle) (hlast : s.cycles.getLast? = some last) :
    ∃ p1 p2 : Prediction, (predictFuturePeriods gen s).2 = some [p1, p2] ∧
      p1.predictedPeriodStart = put_time (addDaysTm (get_time last.endDate) (gen.draw 0)) ∧
      p2.predictedPeriodStart
        = put_time (addDaysTm (addDaysTm (get_time last.endDate) (gen.draw 0)) (gen.draw 1)) ∧
      (p1.ovulationDate, p1.fertileStartDate, p1.fertileEndDate)
        = calculateOvulationAndFertility p1.predictedPeriodStart ∧
      (p2.ovulationDate, p2.fertileStartDate, p2.fertileEndDate)
        = calculateOvulationAndFertility p2.predictedPeriodStart ∧
      (calculateDaysDifference p1.ovulationDate p1.predictedPeriodStart = 14 ∧
        calculateDaysDifference p1.fertileStartDate p1.ovulationDate = 2 ∧
        calculateDaysDifference p1.ovulationDate p1.fertileEndDate = 1) ∧
      (calculateDaysDifference p2.ovulationDate p2.predictedPeriodStart = 14 ∧
        calculateDaysDifference p2.fertileStartDate p2.ovulationDate = 2 ∧
        calculateDaysDifference p2.ovulationDate p2.fertileEndDate = 1) ∧
      ((addDaysTm (addDaysTm (get_time last.endDate) (gen.draw 0)) (gen.draw 1)).tm_year
          + 1900 ≤ 9999 →
        get_time p1.predictedPeriodStart = addDaysTm (get_time last.endDate) (gen.draw 0) ∧
        get_time p2.predictedPeriodStart
          = addDaysTm (addDaysTm (get_time last.endDate) (gen.draw 0)) (gen.draw 1)) := by
  have r0 := gen.inRange 0
  have r1 := gen.inRange 1
  have hd := get_time_days_range last.endDate
  have k1 := get_time_predicted_days last.endDate (gen.draw 0) (by omega) (by omega)
  have k2 := get_time_predicted_days last.endDate (gen.draw 0 + gen.draw 1)
    (by omega) (by omega)
  refine ⟨_, _, predictFuturePeriods_eq gen s last hlast, ?_, ?_, ?_, ?_,
    calculateOvulationAndFertility_differences _ k1,
    calculateOvulationAndFertility_differences _ k2, ?_⟩
  · simp only
  · simp only [addDaysTm_addDaysTm]
  · simp only [Prod.mk.eta]
  · simp only [Prod.mk.eta]
  · intro hy
    rw [addDaysTm_addDaysTm, addDaysTm_year] at hy
    have hhi := days_le_of_year_le _ hy
    simp only [addDaysTm_addDaysTm]
    exact ⟨get_time_put_time_addDaysTm _ _ (by omega) (by omega),
      get_time_put_time_addDaysTm _ _ (by omega) (by omega)⟩

/-- C15 amended, at trackers whose last cycle ends on 05-01-2024 and on 31-12-9999. -/
theorem predictFuturePeriods_window_from_text_witness :
    (predictFuturePeriods exampleDraws ⟨[⟨"01-01-2024", "05-01-2024", []⟩], 28⟩).2
      = some [⟨"02-02-2024", "19-01-2024", "17-01-2024", "20-01-2024"⟩,
          ⟨"03-03-2024", "18-02-2024", "16-02-2024", "19-02-2024"⟩] ∧
    calculateDaysDifference "19-01-2024" "02-02-2024" = 14 ∧
    calculateDaysDifference "17-01-2024" "19-01-2024" = 2 ∧
    calculateDaysDifference "19-01-2024" "20-01-2024" = 1 ∧
    get_time "02-02-2024" = addDaysTm (get_time "05-01-2024") (exampleDraws.draw 0) ∧
    calculateDaysDifference "14-01-1000" "28-01-10000" = 14 ∧
    (∃ p1 p2 : Prediction,
      (predictFuturePeriods exampleDraws ⟨[⟨"01-01-2024", "05-01-2024", []⟩], 28⟩).2
        = some [p1, p2] ∧
      calculateDaysDifference p2.ovulationDate p2.predictedPeriodStart = 14) ∧
    (∃ p1 p2 : Prediction,
      (predictFuturePeriods exampleDraws ⟨[⟨"01-12-9999", "31-12-9999", []⟩], 28⟩).2
        = some [p1, p2] ∧
      calculateDaysDifference p1.ovulationDate p1.predictedPeriodStart = 14) := by
  refine ⟨by decide, by decide, by decide, by decide, by decide, by decide, ?_, ?_⟩
  · obtain ⟨p1, p2, h, _, _, _, _, _, h2, _⟩ := predictFuturePeriods_window_from_text
      exampleDraws ⟨[⟨"01-01-2024", "05-01-2024", []⟩], 28⟩ ⟨"01-01-2024", "05-01-2024", []⟩
      (by decide)
    exact ⟨p1, p2, h, h2.1⟩
  · obtain ⟨p1, p2, h, _, _, _, _, h1, _, _⟩ := predictFuturePeriods_window_from_text
      exampleDraws ⟨[⟨"01-12-9999", "31-12-9999", []⟩], 28⟩ ⟨"01-12-9999", "31-12-9999", []⟩
      (by decide)
    exact ⟨p1, p2, h, h1.1⟩

/-- C16: with the engine constructed afresh in every call, the output of
`predictFuturePeriods` is a function of the end date of the last stored cycle alone: two
trackers with the same last end date get the same predictions, whatever else they store, and
a second call on the same tracker repeats the first. -/
theorem predictFuturePeriods_deterministic (gen : UniformDraws 28 30) (s1 s2 : PeriodTracker)
    (h : s1.cycles.getLast?.map (fun c => c.endDate)
      = s2.cycles.getLast?.map (fun c => c.endDate)) :
    (predictFuturePeriods gen s1).2 = (predictFuturePeriods gen s2).2 ∧
    (predictFuturePeriods gen s1).2
      = (s1.cycles.getLast?.map (fun c => c.endDate)).map
          (fun e => predictLoop gen.draw 2 0 (get_time e)) ∧
    (predictFuturePeriods gen (predictFuturePeriods gen s1).1).2
      = (predictFuturePeriods gen s1).2 := by
  have key : ∀ s : PeriodTracker, (predictFuturePeriods gen s).2
      = (s.cycles.getLast?.map (fun c => c.endDate)).map
          (fun e => predictLoop gen.draw 2 0 (get_time e)) := by
    intro s
    unfold predictFuturePeriods
    cases s.cycles.getLast? <;> rfl
  have hsame : (predictFuturePeriods gen s1).1 = s1 := by
    unfold predictFuturePeriods
    split <;> rfl
  refine ⟨?_, key s1, ?_⟩
  · rw [key s1, key s2, h]
  · rw [hsame]

/-- C16 at two trackers that differ in everything but the last end date. -/
theorem predictFuturePeriods_deterministic_witness :
    (PeriodTracker.mk [⟨"01-01-2024", "05-01-2024", []⟩] 28).cycles.getLast?.map
        (fun c => c.endDate)
      = (PeriodTracker.mk [⟨"01-03-2024", "06-03-2024", ["nausea"]⟩,
          ⟨"20-12-2023", "05-01-2024", ["cramps"]⟩] 17).cycles.getLast?.map
        (fun c => c.endDate) ∧
    (predictFuturePeriods exampleDraws ⟨[⟨"01-01-2024", "05-01-2024", []⟩], 28⟩).2
      = (predictFuturePeriods exampleDraws ⟨[⟨"01-03-2024", "06-03-2024", ["nausea"]⟩,
          ⟨"20-12-2023", "05-01-2024", ["cramps"]⟩], 17⟩).2 ∧
    (predictFuturePeriods exampleDraws ⟨[⟨"01-01-2024", "05-01-2024", []⟩], 28⟩).2
      = some [⟨"02-02-2024", "19-01-2024", "17-01-2024", "20-01-2024"⟩,
          ⟨"03-03-2024", "18-02-2024", "16-02-2024", "19-02-2024"⟩] :=
  ⟨by decide,
    (predictFuturePeriods_deterministic exampleDraws ⟨[⟨"01-01-2024", "05-01-2024", []⟩], 28⟩
      ⟨[⟨"01-03-2024", "06-03-2024", ["nausea"]⟩, ⟨"20-12-2023", "05-01-2024", ["cramps"]⟩], 17⟩
      (by decide)).1,
    by decide⟩

/-- C17, at the failing input: the single call `addCycle(01-01-1700, 01-01-2024)` on the
empty tracker has valid dates, start before end, 118338 days apart; the length is computed
as -95165 and the average left behind is -47568, which is negative. -/
theorem addCycles_average_negative_after_far_dates :
    (∀ c ∈ [((⟨1, 1, 1700⟩ : Date), (⟨1, 1, 2024⟩ : Date), ([] : List String))],
      c.1.Valid ∧ c.2.1.Valid ∧ c.1.le c.2.1) ∧
    List.map callOfDates [(⟨1, 1, 1700⟩, ⟨1, 1, 2024⟩, [])]
      = [("01-01-1700", "01-01-2024", [])] ∧
    (get_time "01-01-2024").days - (get_time "01-01-1700").days = 118338 ∧
    calculateDaysDifference "01-01-1700" "01-01-2024" = -95165 ∧
    (init.addCycles [("01-01-1700", "01-01-2024", [])]).averageCycleLength = -47568 ∧
    ¬ (0 ≤ (init.addCycles [("01-01-1700", "01-01-2024", [])]).averageCycleLength) ∧
    (min 28 (-95165) ≤ (init.addCycles [("01-01-1700", "01-01-2024", [])]).averageCycleLength
      ∧ (init.addCycles [("01-01-1700", "01-01-2024", [])]).averageCycleLength
        ≤ max 28 (-95165)) := by
  refine ⟨by decide, by decide, by decide, by decide, by decide, by decide, by decide,
    by decide⟩

/-- C18, at the failing input: for the valid dates 01-01-1700, 01-01-1900 and 01-01-2024
the day differences returned are 73048 and 45290 for the two steps, which add up to 118338,
but -95165 for the whole span; the reverse span gives 95165. -/
theorem calculateDaysDifference_not_additive_far_dates :
    (Date.mk 1 1 1700).Valid ∧ (Date.mk 1 1 1900).Valid ∧ (Date.mk 1 1 2024).Valid ∧
    (Date.mk 1 1 1700).text = "01-01-1700" ∧ (Date.mk 1 1 1900).text = "01-01-1900" ∧
    (Date.mk 1 1 2024).text = "01-01-2024" ∧
    calculateDaysDifference "01-01-1700" "01-01-1900" = 73048 ∧
    calculateDaysDifference "01-01-1900" "01-01-2024" = 45290 ∧
    calculateDaysDifference "01-01-1700" "01-01-2024" = -95165 ∧
    calculateDaysDifference "01-01-2024" "01-01-1700" = 95165 ∧
    calculateDaysDifference "01-01-1700" "01-01-2024"
      ≠ calculateDaysDifference "01-01-1700" "01-01-1900"
        + calculateDaysDifference "01-01-1900" "01-01-2024" := by
  refine ⟨by decide, by decide, by decide, by decide, by decide, by decide, by decide,
    by decide, by decide, by decide, by decide⟩

/-- C19: day offsets compose on the running `std::tm`: from a valid date `d`, normalising
after adding `m` days and again after adding `n` days gives the date of adding `m + n` days
once, and adding 0 days gives `d` back.  The same holds on the printed texts while the
intermediate year stays in 0..9999 (and `addDays(d, 0)` is the text of `d` for years from
1000).  So the second predicted start is the last end date moved by `L1 + L2` days, with
`56 ≤ L1 + L2 ≤ 60`. -/
theorem addDays_compose (d : Date) (m n : Int) (hd : d.Valid) (gen : UniformDraws 28 30)
    (s : PeriodTracker) (last : PeriodTracker.Cycle) (hlast : s.cycles.getLast? = some last) :
    get_time d.text = d.toTm ∧
    addDaysTm (addDaysTm (get_time d.text) m) n = addDaysTm (get_time d.text) (m + n) ∧
    addDaysTm (get_time d.text) 0 = get_time d.text ∧
    ((0 ≤ (addDaysTm (get_time d.text) m).tm_year + 1900 ∧
        (addDaysTm (get_time d.text) m).tm_year + 1900 ≤ 9999) →
      addDays (addDays d.text m) n = addDays d.text (m + n)) ∧
    (1000 ≤ d.year → addDays d.text 0 = d.text) ∧
    ∃ p1 p2 : Prediction, (predictFuturePeriods gen s).2 = some [p1, p2] ∧
      p2.predictedPeriodStart
        = put_time (addDaysTm (get_time last.endDate) (gen.draw 0 + gen.draw 1)) ∧
      (56 ≤ gen.draw 0 + gen.draw 1 ∧ gen.draw 0 + gen.draw 1 ≤ 60) ∧
      (addDaysTm (get_time last.endDate) (gen.draw 0 + gen.draw 1)).days
        = (get_time last.endDate).days + (gen.draw 0 + gen.draw 1) ∧
      ((addDaysTm (get_time last.endDate) (gen.draw 0 + gen.draw 1)).tm_year + 1900 ≤ 9999 →
        calculateDaysDifference last.endDate p2.predictedPeriodStart
          = gen.draw 0 + gen.draw 1) := by
  have ht := hd.get_time_text
  have hzero : addDaysTm d.toTm 0 = d.toTm := by
    have h0 : ({ d.toTm with tm_mday := d.toTm.tm_mday + 0 } : Tm) = d.toTm := by
      simp only [add_zero]
    unfold addDaysTm
    rw [h0]
    exact mktime_of_valid _ hd.toTm_valid
  have r0 := gen.inRange 0
  have r1 := gen.inRange 1
  refine ⟨ht, addDaysTm_addDaysTm _ _ _, ?_, ?_, ?_, ?_⟩
  · rw [ht]
    exact hzero
  · intro hy
    have hv := addDaysTm_valid (get_time d.text) m
    simp only [addDays]
    rw [get_time_put_time _ ⟨hv.2.2.1, hv.mday_le⟩ ⟨hv.1, hv.2.1⟩ hy, addDaysTm_addDaysTm]
  · intro hy
    simp only [addDays]
    rw [ht, hzero]
    exact put_time_toTm d hd hy
  · refine ⟨_, _, predictFuturePeriods_eq gen s last hlast, rfl, ⟨by omega, by omega⟩,
      addDaysTm_days _ _, ?_⟩
    intro hy
    have hdr := get_time_days_range last.endDate
    rw [addDaysTm_year] at hy
    have hhi := days_le_of_year_le _ hy
    have g := get_time_put_time_addDaysTm (get_time last.endDate) (gen.draw 0 + gen.draw 1)
      (by omega) (by omega)
    simp only
    rw [calculateDaysDifference_eq _ _ (by rw [g, addDaysTm_days]; omega), g, addDaysTm_days]
    omega

/-- C19 at 28-02-2024 with offsets 2 and -59, and at a tracker whose last cycle ends on
05-01-2024 (second predicted start 03-03-2024, 58 days later). -/
theorem addDays_compose_witness :
    (Date.mk 28 2 2024).Valid ∧ (Date.mk 28 2 2024).text = "28-02-2024" ∧
    addDays "28-02-2024" 2 = "01-03-2024" ∧ addDays "01-03-2024" (-59) = "02-01-2024" ∧
    addDays "28-02-2024" (-57) = "02-01-2024" ∧
    addDaysTm (addDaysTm (get_time "28-02-2024") 2) (-59)
      = addDaysTm (get_time "28-02-2024") (2 + -59) ∧
    addDaysTm (get_time "28-02-2024") 0 = get_time "28-02-2024" ∧
    ∃ p1 p2 : Prediction,
      (predictFuturePeriods exampleDraws ⟨[⟨"01-01-2024", "05-01-2024", []⟩], 28⟩).2
        = some [p1, p2] ∧
      p2.predictedPeriodStart
        = put_time (addDaysTm (get_time "05-01-2024")
            (exampleDraws.draw 0 + exampleDraws.draw 1)) ∧
      (56 ≤ exampleDraws.draw 0 + exampleDraws.draw 1 ∧
        exampleDraws.draw 0 + exampleDraws.draw 1 ≤ 60) ∧
      (addDaysTm (get_time "05-01-2024") (exampleDraws.draw 0 + exampleDraws.draw 1)).days
        = (get_time "05-01-2024").days + (exampleDraws.draw 0 + exampleDraws.draw 1) ∧
      ((addDaysTm (get_time "05-01-2024")
          (exampleDraws.draw 0 + exampleDraws.draw 1)).tm_year + 1900 ≤ 9999 →
        calculateDaysDifference "05-01-2024" p2.predictedPeriodStart
          = exampleDraws.draw 0 + exampleDraws.draw 1) :=
  ⟨by decide, by decide, by decide, by decide, by decide,
    (addDays_compose ⟨28, 2, 2024⟩ 2 (-59) (by decide) exampleDraws
      ⟨[⟨"01-01-2024", "05-01-2024", []⟩], 28⟩ ⟨"01-01-2024", "05-01-2024", []⟩
      (by decide)).2.1,
    (addDays_compose ⟨28, 2, 2024⟩ 2 (-59) (by decide) exampleDraws
      ⟨[⟨"01-01-2024", "05-01-2024", []⟩], 28⟩ ⟨"01-01-2024", "05-01-2024", []⟩
      (by decide)).2.2.1,
    (addDays_compose ⟨28, 2, 2024⟩ 2 (-59) (by decide) exampleDraws
      ⟨[⟨"01-01-2024", "05-01-2024", []⟩], 28⟩ ⟨"01-01-2024", "05-01-2024", []⟩
      (by decide)).2.2.2.2.2⟩
